import Mathlib

/-!
Shallow embedding of the database deployment and data synchronisation
orchestrator (deploy.py, deployer/sql_deployer.py, deployer/data_loader.py,
utils/db_manager.py) and proofs of its specified properties.

Database effects are modelled by an environment that decides the outcome of
each operation, and by a trace of the operations actually issued to the
database.  Wall-clock fields (durations, timestamps) of the various result
dictionaries are abstracted away; every other field the specification talks
about is kept.  Result dictionaries whose key sets differ between the
success and the failure branch are modelled as structures with `Option`
fields: a `none` field corresponds to an absent dictionary key.
-/

/-- Outcome status recorded in result dictionaries. -/
inductive Status where
  | success
  | failed
  | skipped
deriving DecidableEq

/-- One entry of `SQLDeployer.deployment_log` (the result dictionary built
by `_execute_sql_script`). -/
structure ExecResult where
  script : String
  status : Status
  error : Option String
deriving DecidableEq

/-- One SQL script execution issued to the database: the folder and file it
came from and the exact SQL text passed to `execute_script`. -/
structure SqlEvent where
  folder : String
  name : String
  sql : String
deriving DecidableEq

/-- State of a `SQLDeployer`: its `deployment_log`, plus the trace of
scripts actually sent to the database (the observable effects). -/
structure DepState where
  log : List ExecResult
  trace : List SqlEvent
deriving DecidableEq

/-- Environment for the SQL deployer: which script files exist on disk,
their content, and whether the database accepts each executed script. -/
structure ExecEnv where
  file_exists : String → String → Bool
  content : String → String → String
  exec_ok : SqlEvent → Bool
  exec_err : SqlEvent → String

/-- `SQLDeployer.DEPLOYMENT_ORDER`. -/
def DEPLOYMENT_ORDER : List (String × String) :=
  [("DDL", "CREATE_company_info_raw.sql"),
   ("DDL", "CREATE_unified_company_member.sql"),
   ("DDL", "CREATE_new_agents.sql"),
   ("DDL", "CREATE_unified_merge_logs.sql"),
   ("DDL", "CREATE_new_unified_agents.sql"),
   ("FUNCTIONS", "helper_functions.sql"),
   ("FUNCTIONS", "run_unified_member_pipeline.SQL"),
   ("FUNCTIONS", "run_unified_merge_batch.sql"),
   ("TRIGGERS", "TRG_new_unified_agents.sql")]

/-- The static table lookup inside `SQLDeployer._extract_table_name`. -/
def schema_mapping : List (String × String) :=
  [("company_info_raw", "bronze.company_info_raw"),
   ("unified_company_member", "public.unified_company_member"),
   ("new_agents", "public.new_agents"),
   ("unified_merge_logs", "public.unified_merge_logs"),
   ("new_unified_agents", "public.new_unified_agents")]

/-- `SQLDeployer._extract_table_name`: when the filename starts with
CREATE_ and ends with .sql, strip those seven leading and four trailing
characters and look the remaining token up in `schema_mapping`; otherwise
resolve to nothing.  Stated on the character list underlying the string,
matching the character-based slicing of the source. -/
def extract_table_name (filename : String) : Option String :=
  let cs := filename.data
  if ("CREATE_").data.isPrefixOf cs && (".sql").data.isSuffixOf cs then
    schema_mapping.lookup (String.mk ((cs.drop 7).take ((cs.drop 7).length - 4)))
  else
    none

/-- The DROP statement prepended by `deploy_ddl` under force_recreate. -/
def drop_sql (table_name : String) : String :=
  "DROP TABLE IF EXISTS " ++ table_name ++ " CASCADE;\n"

/-- The content transformation `deploy_ddl` applies to a DDL script before
executing it: under force_recreate, when the filename resolves to a known
table, prepend one DROP statement; otherwise leave the content unchanged. -/
def ddl_transform (force_recreate : Bool) (filename content : String) : String :=
  if force_recreate then
    match extract_table_name filename with
    | some t => drop_sql t ++ content
    | none => content
  else
    content

/-- `SQLDeployer._load_sql_file`: raises when the file is absent. -/
def load_sql_file (env : ExecEnv) (folder filename : String) : Except String String :=
  if env.file_exists folder filename then
    .ok (env.content folder filename)
  else
    .error ("SQL file not found: " ++ folder ++ "/" ++ filename)

/-- `SQLDeployer._execute_sql_script`: sends the script to the database,
appends a success or failure entry to the deployment log, and re-raises the
database error on failure. -/
def execute_sql_script (env : ExecEnv) (folder name sql : String) (st : DepState) :
    Except String ExecResult × DepState :=
  let ev : SqlEvent := ⟨folder, name, sql⟩
  let script := folder ++ "/" ++ name
  if env.exec_ok ev then
    let r : ExecResult := ⟨script, .success, none⟩
    (.ok r, ⟨st.log ++ [r], st.trace ++ [ev]⟩)
  else
    let e := env.exec_err ev
    let r : ExecResult := ⟨script, .failed, some e⟩
    (.error e, ⟨st.log ++ [r], st.trace ++ [ev]⟩)

/-- The per-phase loop shared by `deploy_ddl`, `deploy_functions` and
`deploy_triggers`: walk `DEPLOYMENT_ORDER`, process the entries of the
target folder, apply the phase's content transformation, and stop at the
first load or execution error (the Python loops log and re-raise). -/
def deploy_phase (env : ExecEnv) (target : String) (tf : String → String → String) :
    List (String × String) → DepState → Except String (List ExecResult) × DepState
  | [], st => (.ok [], st)
  | (folder, f) :: rest, st =>
    if folder = target then
      match load_sql_file env folder f with
      | .error e => (.error e, st)
      | .ok c =>
        match execute_sql_script env folder f (tf f c) st with
        | (.error e, st1) => (.error e, st1)
        | (.ok r, st1) =>
          match deploy_phase env target tf rest st1 with
          | (.ok rs, st2) => (.ok (r :: rs), st2)
          | (.error e, st2) => (.error e, st2)
    else
      deploy_phase env target tf rest st

/-- `SQLDeployer.deploy_ddl`. -/
def deploy_ddl (env : ExecEnv) (force_recreate : Bool) (st : DepState) :
    Except String (List ExecResult) × DepState :=
  deploy_phase env ("DDL") (ddl_transform force_recreate) DEPLOYMENT_ORDER st

/-- `SQLDeployer.deploy_functions`. -/
def deploy_functions (env : ExecEnv) (st : DepState) :
    Except String (List ExecResult) × DepState :=
  deploy_phase env ("FUNCTIONS") (fun _ c => c) DEPLOYMENT_ORDER st

/-- `SQLDeployer.deploy_triggers`. -/
def deploy_triggers (env : ExecEnv) (st : DepState) :
    Except String (List ExecResult) × DepState :=
  deploy_phase env ("TRIGGERS") (fun _ c => c) DEPLOYMENT_ORDER st

/-- Result of `SQLDeployer.deploy_rls`: either the skipped dictionary or
the execution result of the single policy script. -/
inductive RlsResult where
  | skipped (reason : String)
  | executed (r : ExecResult)
deriving DecidableEq

/-- `SQLDeployer.deploy_rls`. -/
def deploy_rls (env : ExecEnv) (enable : Bool) (st : DepState) :
    Except String RlsResult × DepState :=
  if enable then
    match load_sql_file env ("RLS") ("RLS_enable_rls.sql") with
    | .error e => (.error e, st)
    | .ok c =>
      match execute_sql_script env ("RLS") ("RLS_enable_rls.sql") c st with
      | (.ok r, st1) => (.ok (.executed r), st1)
      | (.error e, st1) => (.error e, st1)
  else
    (.ok (.skipped ("disabled")), st)

/-- The summary dictionary returned by `SQLDeployer.deploy_all`.  The
success branch carries the per-phase counts and the rls flag; the failure
branch carries only the error, so those fields are `Option`s (a `none`
models an absent dictionary key). -/
structure DeploySummary where
  status : Status
  error : Option String
  ddl_count : Option Nat
  function_count : Option Nat
  trigger_count : Option Nat
  rls_enabled : Option Bool
  deployment_log : List ExecResult
deriving DecidableEq

/-- The failure summary built by the except branch of `deploy_all`. -/
def fail_summary (e : String) (log : List ExecResult) : DeploySummary :=
  ⟨.failed, some e, none, none, none, none, log⟩

/-- `SQLDeployer.deploy_all`: the four phases strictly in sequence, a
catch-all that turns any phase exception into a failure summary. -/
def deploy_all (env : ExecEnv) (force_recreate enable_rls : Bool) (st : DepState) :
    DeploySummary × DepState :=
  match deploy_ddl env force_recreate st with
  | (.error e, st1) => (fail_summary e st1.log, st1)
  | (.ok ddl_results, st1) =>
    match deploy_functions env st1 with
    | (.error e, st2) => (fail_summary e st2.log, st2)
    | (.ok function_results, st2) =>
      match deploy_triggers env st2 with
      | (.error e, st3) => (fail_summary e st3.log, st3)
      | (.ok trigger_results, st3) =>
        match deploy_rls env enable_rls st3 with
        | (.error e, st4) => (fail_summary e st4.log, st4)
        | (.ok _, st4) =>
          (⟨.success, none, some ddl_results.length, some function_results.length,
            some trigger_results.length, some enable_rls, st4.log⟩, st4)

/-! ## Verification (`SQLDeployer.verify_deployment`, `DatabaseManager`) -/

/-- Environment for the read-only catalog queries used by verification:
whether each catalog query succeeds, and its answer when it does. -/
structure VerifyEnv where
  table_query_ok : String → String → Bool
  table_in_catalog : String → String → Bool
  row_query_ok : String → String → Bool
  row_count_val : String → String → Int
  func_query_ok : String → Bool
  func_in_catalog : String → Bool

/-- `DatabaseManager.table_exists` (table_name, schema): a failed catalog
query is caught and reported as `false`. -/
def db_table_exists (env : VerifyEnv) (table_name schema : String) : Bool :=
  if env.table_query_ok schema table_name then
    env.table_in_catalog schema table_name
  else
    false

/-- `DatabaseManager.get_row_count`: a failed query is caught and reported
as the sentinel -1. -/
def db_get_row_count (env : VerifyEnv) (table_name schema : String) : Int :=
  if env.row_query_ok schema table_name then
    env.row_count_val schema table_name
  else
    -1

/-- The `expected_tables` list inside `verify_deployment`. -/
def expected_tables : List (String × String) :=
  [("bronze", "company_info_raw"),
   ("public", "unified_company_member"),
   ("public", "new_agents"),
   ("public", "unified_merge_logs"),
   ("public", "new_unified_agents")]

/-- The `expected_functions` list inside `verify_deployment`. -/
def expected_functions : List String :=
  ["array_merge_unique",
   "update_last_updated_column",
   "run_unified_member_pipeline",
   "run_unified_merge_batch"]

/-- One entry of the tables part of the verification report. -/
structure TableCheck where
  table_found : Bool
  row_count : Int
deriving DecidableEq

/-- The `verification` report dictionary. -/
structure VerifyReport where
  tables : List (String × TableCheck)
  functions : List (String × Bool)
  all_verified : Bool
deriving DecidableEq

/-- The table loop of `verify_deployment`, threading the `all_verified`
flag exactly as the source does (set to false at each missing table). -/
def verify_tables_loop (env : VerifyEnv) :
    List (String × String) → Bool → List (String × TableCheck) × Bool
  | [], flag => ([], flag)
  | p :: rest, flag =>
    let ex := db_table_exists env p.2 p.1
    let rc : Int := if ex then db_get_row_count env p.2 p.1 else 0
    let flag1 := if ex then flag else false
    let (l, flag2) := verify_tables_loop env rest flag1
    ((p.1 ++ "." ++ p.2, ⟨ex, rc⟩) :: l, flag2)

/-- The function loop of `verify_deployment`: a failing catalog query is
caught, recorded as `false` and clears the flag; a missing function is
recorded and clears the flag. -/
def verify_funcs_loop (env : VerifyEnv) :
    List String → Bool → List (String × Bool) × Bool
  | [], flag => ([], flag)
  | f :: rest, flag =>
    if env.func_query_ok f then
      let ex := env.func_in_catalog f
      let flag1 := if ex then flag else false
      let (l, flag2) := verify_funcs_loop env rest flag1
      ((f, ex) :: l, flag2)
    else
      let (l, flag2) := verify_funcs_loop env rest false
      ((f, false) :: l, flag2)

/-- `SQLDeployer.verify_deployment`: performs only the catalog reads above
and returns a report; the deployer state (log and trace) is untouched. -/
def verify_deployment (env : VerifyEnv) (st : DepState) : VerifyReport × DepState :=
  let (tl, flag1) := verify_tables_loop env expected_tables true
  let (fl, flag2) := verify_funcs_loop env expected_functions flag1
  (⟨tl, fl, flag2⟩, st)

/-! ## DataLoader -/

/-- A CSV data row as produced by the header-keyed reader: an association
of column name to field value. -/
abbrev Row := List (String × String)

/-- A database operation issued by the data loader. -/
inductive LoadEvent where
  | copy (schema table file : String)
  | insert_batch (schema table sql : String) (rows : List Row)
  | proc_call (name : String)
deriving DecidableEq

/-- One entry of `DataLoader.load_log` (the per-file result dictionary of
`load_csv`; the failure branch omits the table and row-count keys). -/
structure LoadResult where
  csv_file : String
  table : Option String
  status : Status
  rows_loaded : Option Nat
  error : Option String
deriving DecidableEq

/-- State of a `DataLoader`: its `load_log` and the trace of database
operations actually issued. -/
structure LoadState where
  log : List LoadResult
  trace : List LoadEvent
deriving DecidableEq

/-- Environment for the data loader: per-operation database outcomes (the
`k`-th issued operation may succeed or fail), the CSV files on disk with
their header and rows, the bulk-copy row count reported by the driver, and
the table-existence catalog answers. -/
structure LoadEnv where
  ok : LoadEvent → Nat → Bool
  err : LoadEvent → Nat → String
  file_exists : String → Bool
  csv_columns : String → List String
  csv_data : String → List Row
  copy_rowcount : String → Nat
  table_exists : String → String → Bool

/-- Issue one database operation: record it in the trace and let the
environment decide its outcome. -/
def run_effect (env : LoadEnv) (e : LoadEvent) (st : LoadState) :
    Except String Unit × LoadState :=
  let k := st.trace.length
  let st1 : LoadState := ⟨st.log, st.trace ++ [e]⟩
  if env.ok e k then (.ok (), st1) else (.error (env.err e k), st1)

/-- `DataLoader.CSV_TABLE_MAPPING`. -/
def CSV_TABLE_MAPPING : List (String × String × String) :=
  [("raw_company_info.csv", ("public", "company_info_raw")),
   ("new_agents.csv", ("public", "new_agents"))]

/-- `DataLoader._load_csv_with_copy`: a single server-side bulk copy of the
whole file; on success the driver reports the row count. -/
def load_csv_with_copy (env : LoadEnv) (file schema table : String) (st : LoadState) :
    Except String Nat × LoadState :=
  match run_effect env (.copy schema table file) st with
  | (.ok _, st1) => (.ok (env.copy_rowcount file), st1)
  | (.error e, st1) => (.error e, st1)

/-- The INSERT statement built by `DataLoader._insert_batch`. -/
def insert_sql (schema table : String) (columns : List String) : String :=
  let placeholders := String.intercalate (", ") (columns.map (fun _ => "%s"))
  let columns_str := String.intercalate (", ") columns
  "\n            INSERT INTO " ++ schema ++ "." ++ table ++ " (" ++ columns_str ++
    ")\n            VALUES (" ++ placeholders ++ ")\n            ON CONFLICT DO NOTHING\n        "

/-- `DataLoader._insert_batch`: one cursor scope inserting every row of the
batch with the conflict-ignoring statement and committing at the end; the
whole batch is one transactional unit (any row failure rolls it back and
raises).  An empty batch issues nothing. -/
def insert_batch (env : LoadEnv) (schema table : String) (columns : List String)
    (rows : List Row) (st : LoadState) : Except String Unit × LoadState :=
  if rows.isEmpty then
    (.ok (), st)
  else
    run_effect env (.insert_batch schema table (insert_sql schema table columns) rows) st

/-- The batching loop of `DataLoader._load_csv_with_insert`: accumulate
rows, flush each full batch, flush the remainder at the end, and propagate
the first insert error. -/
def insert_chunks (env : LoadEnv) (schema table : String) (columns : List String)
    (batch_size : Nat) :
    List Row → List Row → Nat → LoadState → Except String Nat × LoadState
  | [], batch, total, st =>
    if batch.isEmpty then
      (.ok total, st)
    else
      match insert_batch env schema table columns batch st with
      | (.ok _, st1) => (.ok (total + batch.length), st1)
      | (.error e, st1) => (.error e, st1)
  | r :: rest, batch, total, st =>
    let batch1 := batch ++ [r]
    if batch_size ≤ batch1.length then
      match insert_batch env schema table columns batch1 st with
      | (.ok _, st1) =>
        insert_chunks env schema table columns batch_size rest [] (total + batch1.length) st1
      | (.error e, st1) => (.error e, st1)
    else
      insert_chunks env schema table columns batch_size rest batch1 total st

/-- The default of the `batch_size` argument of `_load_csv_with_insert`. -/
def default_batch_size : Nat := 1000

/-- `DataLoader._load_csv_with_insert`: read the header and the rows,
insert in fixed-size batches, return the number of rows loaded. -/
def load_csv_with_insert (env : LoadEnv) (file schema table : String)
    (batch_size : Nat) (st : LoadState) : Except String Nat × LoadState :=
  let columns := env.csv_columns file
  if columns.isEmpty then
    (.error ("No columns found in CSV: " ++ file), st)
  else
    insert_chunks env schema table columns batch_size (env.csv_data file) [] 0 st

/-- `DataLoader.load_csv`: resolve the mapping, check the file and the
destination table, bulk-copy with a single fallback to the batched insert
path, and append a per-file result to the load log on every outcome. -/
def load_csv (env : LoadEnv) (file : String) (use_copy : Bool) (st : LoadState) :
    Except String LoadResult × LoadState :=
  match CSV_TABLE_MAPPING.lookup file with
  | none =>
    let e := "No table mapping found for CSV: " ++ file
    let r : LoadResult := ⟨file, none, .failed, none, some e⟩
    (.error e, ⟨st.log ++ [r], st.trace⟩)
  | some (schema, table) =>
    if env.file_exists file then
      if env.table_exists schema table then
        let loaded : Except String Nat × LoadState :=
          if use_copy then
            match load_csv_with_copy env file schema table st with
            | (.ok n, st1) => (.ok n, st1)
            | (.error _, st1) => load_csv_with_insert env file schema table default_batch_size st1
          else
            load_csv_with_insert env file schema table default_batch_size st
        match loaded with
        | (.ok n, st1) =>
          let r : LoadResult := ⟨file, some (schema ++ "." ++ table), .success, some n, none⟩
          (.ok r, ⟨st1.log ++ [r], st1.trace⟩)
        | (.error e, st1) =>
          let r : LoadResult := ⟨file, none, .failed, none, some e⟩
          (.error e, ⟨st1.log ++ [r], st1.trace⟩)
      else
        let e := "Table " ++ schema ++ "." ++ table ++ " does not exist. Run DDL deployment first."
        let r : LoadResult := ⟨file, none, .failed, none, some e⟩
        (.error e, ⟨st.log ++ [r], st.trace⟩)
    else
      let e := "CSV file not found: " ++ file
      let r : LoadResult := ⟨file, none, .failed, none, some e⟩
      (.error e, ⟨st.log ++ [r], st.trace⟩)

/-- The summary dictionary of `load_all_csvs` (failure branch omits the
file and row counters). -/
structure LoadSummary where
  status : Status
  error : Option String
  files_loaded : Option Nat
  total_rows : Option Nat
  load_log : List LoadResult
deriving DecidableEq

/-- The iteration of `load_all_csvs` over the mapped filenames: a file
absent from disk is skipped and the iteration continues; a load failure
aborts the iteration and surfaces as the failure summary, with the load
log accumulated so far. -/
def load_all_loop (env : LoadEnv) (use_copy : Bool) :
    List String → List LoadResult → Nat → LoadState → LoadSummary × LoadState
  | [], results, total, st =>
    (⟨.success, none, some results.length, some total, st.log⟩, st)
  | f :: rest, results, total, st =>
    if env.file_exists f then
      match load_csv env f use_copy st with
      | (.ok r, st1) =>
        load_all_loop env use_copy rest (results ++ [r]) (total + r.rows_loaded.getD 0) st1
      | (.error e, st1) => (⟨.failed, some e, none, none, st1.log⟩, st1)
    else
      load_all_loop env use_copy rest results total st

/-- `DataLoader.load_all_csvs`: iterate the static mapping in declared
order. -/
def load_all_csvs (env : LoadEnv) (use_copy : Bool) (st : LoadState) :
    LoadSummary × LoadState :=
  load_all_loop env use_copy (CSV_TABLE_MAPPING.map Prod.fst) [] 0 st

/-- The statistics dictionary read back by `_get_pipeline_stats` (an empty
dictionary on query failure is modelled as `none`). -/
structure PipelineStats where
  unified_agents_count : Int
  needs_review_count : Int
deriving DecidableEq

/-- The summary dictionary of `run_data_pipeline` (failure branch omits
the load summary and the statistics). -/
structure PipelineSummary where
  status : Status
  error : Option String
  csv_load_summary : Option LoadSummary
  statistics : Option (Option PipelineStats)
deriving DecidableEq

/-- Environment fields of the pipeline stage beyond `LoadEnv`: the
statistics read back from the destination table. -/
structure PipelineEnv where
  load : LoadEnv
  pipeline_stats : Option PipelineStats

/-- `DataLoader.run_data_pipeline`: load the CSVs, then invoke the two
external procedures strictly in sequence, turning any failure into a failed
summary. -/
def run_data_pipeline (env : PipelineEnv) (st : LoadState) : PipelineSummary × LoadState :=
  match load_all_csvs env.load true st with
  | (ls, st1) =>
    if ls.status = .success then
      match run_effect env.load (.proc_call ("run_unified_member_pipeline")) st1 with
      | (.error e, st2) => (⟨.failed, some e, none, none⟩, st2)
      | (.ok _, st2) =>
        match run_effect env.load (.proc_call ("run_unified_merge_batch")) st2 with
        | (.error e, st3) => (⟨.failed, some e, none, none⟩, st3)
        | (.ok _, st3) =>
          (⟨.success, none, some ls, some env.pipeline_stats⟩, st3)
    else
      (⟨.failed, some ("CSV loading failed"), none, none⟩, st1)

/-! ## Connection manager (`DatabaseManager.get_connection` / `get_cursor`) -/

/-- The session attributes of one pooled psycopg2 connection that
`DatabaseManager` touches: the autocommit flag and the cursor factory. -/
structure Conn where
  autocommit : Bool
  cursor_factory : Option String
deriving DecidableEq

/-- The mutation `get_connection` performs on the checked-out connection
before yielding it: set the dictionary cursor factory when requested,
touch nothing otherwise. -/
def conn_checkout_effect (dict_cursor : Bool) (c : Conn) : Conn :=
  if dict_cursor then {c with cursor_factory := some ("RealDictCursor")} else c

/-- The connection attributes visible inside a `get_cursor` scope: the
`get_connection` mutation, then autocommit switched on when requested.
Neither flag is ever switched off. -/
def conn_at_yield (dict_cursor autocommit : Bool) (c : Conn) : Conn :=
  let c1 := conn_checkout_effect dict_cursor c
  if autocommit then {c1 with autocommit := true} else c1

/-- The connection attributes at the moment `get_connection` returns the
connection to the pool: commit, rollback and cursor close change neither
attribute, so the state at release equals the state at yield. -/
def conn_at_release (dict_cursor autocommit : Bool) (c : Conn) : Conn :=
  conn_at_yield dict_cursor autocommit c

/-- psycopg2 pool checkout: `getconn` pops the most recently returned
connection (LIFO); an empty pool blocks, modelled as `none`. -/
def pool_getconn (p : List Conn) : Option (Conn × List Conn) :=
  match p.getLast? with
  | none => none
  | some c => some (c, p.dropLast)

/-- psycopg2 pool release: `putconn` appends the connection. -/
def pool_putconn (c : Conn) (p : List Conn) : List Conn := p ++ [c]

/-- One complete `get_cursor` scope against the pool: check a connection
out, run the scope, and return the connection — with whatever attributes
the scope left on it — to the pool. -/
def scoped_cursor_pool (dict_cursor autocommit : Bool) (p : List Conn) :
    Option (List Conn) :=
  match pool_getconn p with
  | none => none
  | some (c, rest) => some (pool_putconn (conn_at_release dict_cursor autocommit c) rest)

/-! ## Orchestrator (`deploy.py` `deploy_database`) -/

/-- Environment for the whole orchestrated run: outcomes of the stages
that precede SQL deployment, then the deployer, verifier and loader
environments. -/
structure OrchEnv where
  config_ok : Bool
  pool_create_ok : Bool
  conn_test_ok : Bool
  sql_path_exists : Bool
  csv_path_exists : Bool
  sql : ExecEnv
  ver : VerifyEnv
  pipe : PipelineEnv

/-- The top-level deployment report (sub-reports are `none` when their
stage never ran and its key was never written). -/
structure OrchReport where
  status : Status
  error : Option String
  sql_deployment : Option DeploySummary
  verification : Option VerifyReport
  data_pipeline : Option PipelineSummary
  data_load : Option LoadSummary
deriving DecidableEq

/-- Everything observable about one `deploy_database` run: the report, the
deployer and loader states, and whether the connection pool was created
and closed. -/
structure OrchResult where
  report : OrchReport
  dep : DepState
  data : LoadState
  pool_created : Bool
  pool_closed : Bool
deriving DecidableEq

/-- The try-block of `deploy_database`: configuration, pool creation,
connectivity test, deployer and loader construction, then the stages in
order, raising (here: returning a failed report) at the first failure.
The `pool_closed` field is left false: closing is the job of the
finally-block. -/
def deploy_database_body (env : OrchEnv)
    (force_recreate enable_rls load_data run_pipeline verify : Bool) : OrchResult :=
  let st0 : DepState := ⟨[], []⟩
  let ld0 : LoadState := ⟨[], []⟩
  if env.config_ok then
    if env.pool_create_ok then
      if env.conn_test_ok then
        if env.sql_path_exists then
          if env.csv_path_exists then
            let q := deploy_all env.sql force_recreate enable_rls st0
            if q.1.status = .success then
              let ver := if verify then some (verify_deployment env.ver q.2).1 else none
              if load_data then
                if run_pipeline then
                  let p := run_data_pipeline env.pipe ld0
                  if p.1.status = .success then
                    ⟨⟨.success, none, some q.1, ver, some p.1, none⟩, q.2, p.2, true, false⟩
                  else
                    ⟨⟨.failed, some ("Data pipeline failed"), some q.1, ver, some p.1, none⟩,
                      q.2, p.2, true, false⟩
                else
                  let l := load_all_csvs env.pipe.load true ld0
                  if l.1.status = .success then
                    ⟨⟨.success, none, some q.1, ver, none, some l.1⟩, q.2, l.2, true, false⟩
                  else
                    ⟨⟨.failed, some ("Data loading failed"), some q.1, ver, none, some l.1⟩,
                      q.2, l.2, true, false⟩
              else
                ⟨⟨.success, none, some q.1, ver, none, none⟩, q.2, ld0, true, false⟩
            else
              ⟨⟨.failed, some ("SQL deployment failed"), some q.1, none, none, none⟩,
                q.2, ld0, true, false⟩
          else
            ⟨⟨.failed, some ("CSV base path not found"), none, none, none, none⟩,
              st0, ld0, true, false⟩
        else
          ⟨⟨.failed, some ("SQL base path not found"), none, none, none, none⟩,
            st0, ld0, true, false⟩
      else
        ⟨⟨.failed, some ("Database connection test failed"), none, none, none, none⟩,
          st0, ld0, true, false⟩
    else
      ⟨⟨.failed, some ("Failed to create connection pool"), none, none, none, none⟩,
        st0, ld0, false, false⟩
  else
    ⟨⟨.failed, some ("Missing required environment variables"), none, none, none, none⟩,
      st0, ld0, false, false⟩

/-- `deploy_database`: the try-block wrapped in the finally-block, which
closes the pool exactly when the `db_manager` local exists, i.e. when the
pool was successfully created. -/
def deploy_database (env : OrchEnv)
    (force_recreate enable_rls load_data run_pipeline verify : Bool) : OrchResult :=
  let r := deploy_database_body env force_recreate enable_rls load_data run_pipeline verify
  {r with pool_closed := r.pool_created}

/-! ## Helper lemmas: SQL deployer traces -/

theorem execute_sql_script_trace (env : ExecEnv) (folder name sql : String) (st : DepState) :
    ((execute_sql_script env folder name sql st).2).trace = st.trace ++ [⟨folder, name, sql⟩] := by
  unfold execute_sql_script
  dsimp only
  split <;> rfl

theorem load_sql_file_ok (env : ExecEnv) {folder f c : String}
    (h : load_sql_file env folder f = .ok c) : c = env.content folder f := by
  unfold load_sql_file at h
  split at h
  · exact (Except.ok.injEq _ _ ▸ h).symm
  · exact absurd h (by simp)

theorem deploy_phase_trace (env : ExecEnv) (t : String) (tf : String → String → String)
    (order : List (String × String)) :
    ∀ st : DepState, ∃ l, ((deploy_phase env t tf order st).2).trace = st.trace ++ l ∧
      ∀ e ∈ l, e.folder = t ∧ e.sql = tf e.name (env.content t e.name) := by
  induction order with
  | nil => exact fun st => ⟨[], by simp [deploy_phase], by simp⟩
  | cons hd rest ih =>
    intro st
    obtain ⟨folder, f⟩ := hd
    by_cases hft : folder = t
    · subst hft
      cases hload : load_sql_file env folder f with
      | error e => exact ⟨[], by simp [deploy_phase, hload], by simp⟩
      | ok c =>
        have hc := load_sql_file_ok env hload
        subst hc
        have htr := execute_sql_script_trace env folder f (tf f (env.content folder f)) st
        cases hexec : execute_sql_script env folder f (tf f (env.content folder f)) st with
        | mk res st1 =>
          rw [hexec] at htr
          cases res with
          | error e =>
            refine ⟨[⟨folder, f, tf f (env.content folder f)⟩], ?_, ?_⟩
            · simpa [deploy_phase, hload, hexec] using htr
            · intro e he
              simp only [List.mem_singleton] at he
              subst he
              exact ⟨rfl, rfl⟩
          | ok r =>
            obtain ⟨l, hl, hall⟩ := ih st1
            cases hrec : deploy_phase env folder tf rest st1 with
            | mk res2 st2 =>
              rw [hrec] at hl
              dsimp only at hl htr
              refine ⟨⟨folder, f, tf f (env.content folder f)⟩ :: l, ?_, ?_⟩
              · cases res2 <;>
                  simp [deploy_phase, hload, hexec, hrec, hl, htr]
              · intro e he
                rcases List.mem_cons.mp he with h1 | h2
                · subst h1; exact ⟨rfl, rfl⟩
                · exact hall e h2
    · obtain ⟨l, hl, hall⟩ := ih st
      exact ⟨l, by simpa [deploy_phase, hft] using hl, hall⟩

theorem deploy_rls_trace (env : ExecEnv) (enable : Bool) (st : DepState) :
    ∃ l, ((deploy_rls env enable st).2).trace = st.trace ++ l ∧
      ∀ e ∈ l, e.folder = "RLS" := by
  unfold deploy_rls
  by_cases he : enable
  · simp only [he, if_true]
    cases hload : load_sql_file env ("RLS") ("RLS_enable_rls.sql") with
    | error e => exact ⟨[], by simp, by simp⟩
    | ok c =>
      have htr := execute_sql_script_trace env ("RLS") ("RLS_enable_rls.sql") c st
      cases hexec : execute_sql_script env ("RLS") ("RLS_enable_rls.sql") c st with
      | mk res st1 =>
        rw [hexec] at htr
        dsimp only at htr
        refine ⟨[⟨"RLS", "RLS_enable_rls.sql", c⟩], ?_, by simp⟩
        cases res <;> simp [hexec, htr]
  · exact ⟨[], by simp [he], by simp⟩

theorem deploy_phase_all_ok (env : ExecEnv) (t : String) (tf : String → String → String)
    (order : List (String × String)) (hfiles : ∀ pr ∈ order, env.file_exists pr.1 pr.2 = true)
    (hexec : ∀ ev, env.exec_ok ev = true) :
    ∀ st : DepState, ∃ rs st1, deploy_phase env t tf order st = (.ok rs, st1) := by
  induction order with
  | nil => exact fun st => ⟨[], st, rfl⟩
  | cons hd rest ih =>
    intro st
    obtain ⟨folder, f⟩ := hd
    have hf : env.file_exists folder f = true := hfiles (folder, f) (List.mem_cons_self _ _)
    have hrest : ∀ pr ∈ rest, env.file_exists pr.1 pr.2 = true :=
      fun pr hpr => hfiles pr (List.mem_cons_of_mem _ hpr)
    by_cases hft : folder = t
    · subst hft
      have hload : load_sql_file env folder f = .ok (env.content folder f) := by
        simp [load_sql_file, hf]
      have hex : execute_sql_script env folder f (tf f (env.content folder f)) st =
          (.ok ⟨folder ++ "/" ++ f, .success, none⟩,
            ⟨st.log ++ [⟨folder ++ "/" ++ f, .success, none⟩],
              st.trace ++ [⟨folder, f, tf f (env.content folder f)⟩]⟩) := by
        simp [execute_sql_script, hexec]
      obtain ⟨rs, st2, hrec⟩ := ih hrest
        ⟨st.log ++ [⟨folder ++ "/" ++ f, .success, none⟩],
          st.trace ++ [⟨folder, f, tf f (env.content folder f)⟩]⟩
      exact ⟨⟨folder ++ "/" ++ f, .success, none⟩ :: rs, st2,
        by simp [deploy_phase, hload, hex, hrec]⟩
    · obtain ⟨rs, st2, hrec⟩ := ih hrest st
      exact ⟨rs, st2, by simp [deploy_phase, hft, hrec]⟩

/-- Phase position of a script folder in the fixed deployment order. -/
def phase_idx (folder : String) : Nat :=
  if folder = "DDL" then 0
  else if folder = "FUNCTIONS" then 1
  else if folder = "TRIGGERS" then 2
  else 3

/-- The ordering predicate on the trace: earlier events belong to phases
no later than those of later events. -/
def phase_le (a b : SqlEvent) : Prop := phase_idx a.folder ≤ phase_idx b.folder

theorem pairwise_phase_of_const {l : List SqlEvent} {k : Nat}
    (h : ∀ e ∈ l, phase_idx e.folder = k) : l.Pairwise phase_le := by
  induction l with
  | nil => simp
  | cons a as ih =>
    refine List.Pairwise.cons ?_ (ih fun e he => h e (List.mem_cons_of_mem _ he))
    intro b hb
    unfold phase_le
    rw [h a (List.mem_cons_self _ _), h b (List.mem_cons_of_mem _ hb)]

theorem deploy_ddl_trace (env : ExecEnv) (force_recreate : Bool) (st : DepState) :
    ∃ l, ((deploy_ddl env force_recreate st).2).trace = st.trace ++ l ∧
      ∀ e ∈ l, phase_idx e.folder = 0 := by
  obtain ⟨l, h1, h2⟩ :=
    deploy_phase_trace env ("DDL") (ddl_transform force_recreate) DEPLOYMENT_ORDER st
  exact ⟨l, h1, fun e he => by rw [(h2 e he).1]; simp [phase_idx]⟩

theorem deploy_functions_trace (env : ExecEnv) (st : DepState) :
    ∃ l, ((deploy_functions env st).2).trace = st.trace ++ l ∧
      ∀ e ∈ l, phase_idx e.folder = 1 := by
  obtain ⟨l, h1, h2⟩ :=
    deploy_phase_trace env ("FUNCTIONS") (fun _ c => c) DEPLOYMENT_ORDER st
  exact ⟨l, h1, fun e he => by rw [(h2 e he).1]; simp [phase_idx]⟩

theorem deploy_triggers_trace (env : ExecEnv) (st : DepState) :
    ∃ l, ((deploy_triggers env st).2).trace = st.trace ++ l ∧
      ∀ e ∈ l, phase_idx e.folder = 2 := by
  obtain ⟨l, h1, h2⟩ :=
    deploy_phase_trace env ("TRIGGERS") (fun _ c => c) DEPLOYMENT_ORDER st
  exact ⟨l, h1, fun e he => by rw [(h2 e he).1]; simp [phase_idx]⟩

theorem deploy_rls_trace_idx (env : ExecEnv) (enable : Bool) (st : DepState) :
    ∃ l, ((deploy_rls env enable st).2).trace = st.trace ++ l ∧
      ∀ e ∈ l, phase_idx e.folder = 3 := by
  obtain ⟨l, h1, h2⟩ := deploy_rls_trace env enable st
  exact ⟨l, h1, fun e he => by rw [h2 e he]; simp [phase_idx]⟩

theorem all_idx_le_of_eq {l : List SqlEvent} {k k' : Nat}
    (h : ∀ e ∈ l, phase_idx e.folder = k) (hk : k ≤ k') :
    ∀ e ∈ l, phase_idx e.folder ≤ k' :=
  fun e he => (h e he) ▸ hk

theorem all_idx_le_append {l1 l2 : List SqlEvent} {k : Nat}
    (h1 : ∀ e ∈ l1, phase_idx e.folder ≤ k) (h2 : ∀ e ∈ l2, phase_idx e.folder ≤ k) :
    ∀ e ∈ l1 ++ l2, phase_idx e.folder ≤ k :=
  fun e he => (List.mem_append.mp he).elim (h1 e) (h2 e)

theorem pairwise_phase_append {l1 l2 : List SqlEvent} {k : Nat}
    (p1 : l1.Pairwise phase_le) (p2 : l2.Pairwise phase_le)
    (b1 : ∀ e ∈ l1, phase_idx e.folder ≤ k) (b2 : ∀ e ∈ l2, k ≤ phase_idx e.folder) :
    (l1 ++ l2).Pairwise phase_le :=
  List.pairwise_append.mpr ⟨p1, p2, fun a ha b hb => le_trans (b1 a ha) (b2 b hb)⟩

/-- C1 (amended): for every value of force_recreate and enable_rls,
`deploy_all` runs the four phases strictly in the order schema (DDL) →
functions → triggers → policies (RLS): the trace of executed scripts is
ordered by phase; if any phase raises, no later phase executes; the phase
exception is never propagated and the returned summary always carries the
overall status and the cumulative deployment log; the per-phase counts are
present in the summary exactly when the run succeeded. -/
theorem deploy_all_phase_order_and_summary (env : ExecEnv) (force_recreate enable_rls : Bool) :
    ((deploy_all env force_recreate enable_rls ⟨[], []⟩).1.status = .success ∨
      (deploy_all env force_recreate enable_rls ⟨[], []⟩).1.status = .failed) ∧
    (deploy_all env force_recreate enable_rls ⟨[], []⟩).1.deployment_log =
      ((deploy_all env force_recreate enable_rls ⟨[], []⟩).2).log ∧
    ((deploy_all env force_recreate enable_rls ⟨[], []⟩).1.status = .success ↔
      ((deploy_all env force_recreate enable_rls ⟨[], []⟩).1.ddl_count.isSome ∧
        (deploy_all env force_recreate enable_rls ⟨[], []⟩).1.function_count.isSome ∧
        (deploy_all env force_recreate enable_rls ⟨[], []⟩).1.trigger_count.isSome)) ∧
    ((deploy_all env force_recreate enable_rls ⟨[], []⟩).2).trace.Pairwise phase_le ∧
    (∀ e st1, deploy_ddl env force_recreate ⟨[], []⟩ = (.error e, st1) →
      ∀ ev ∈ ((deploy_all env force_recreate enable_rls ⟨[], []⟩).2).trace,
        phase_idx ev.folder = 0) ∧
    (∀ rs st1 e st2, deploy_ddl env force_recreate ⟨[], []⟩ = (.ok rs, st1) →
      deploy_functions env st1 = (.error e, st2) →
      ∀ ev ∈ ((deploy_all env force_recreate enable_rls ⟨[], []⟩).2).trace,
        phase_idx ev.folder ≤ 1) ∧
    (∀ rs st1 fs st2 e st3, deploy_ddl env force_recreate ⟨[], []⟩ = (.ok rs, st1) →
      deploy_functions env st1 = (.ok fs, st2) →
      deploy_triggers env st2 = (.error e, st3) →
      ∀ ev ∈ ((deploy_all env force_recreate enable_rls ⟨[], []⟩).2).trace,
        phase_idx ev.folder ≤ 2) := by
  obtain ⟨l1, hl1, hk1⟩ := deploy_ddl_trace env force_recreate ⟨[], []⟩
  cases hd : deploy_ddl env force_recreate ⟨[], []⟩ with
  | mk res1 st1 =>
    rw [hd] at hl1
    dsimp only at hl1
    simp only [List.nil_append] at hl1
    cases res1 with
    | error e =>
      have hDA : deploy_all env force_recreate enable_rls ⟨[], []⟩ =
          (fail_summary e st1.log, st1) := by
        simp [deploy_all, hd]
      rw [hDA]
      refine ⟨Or.inr rfl, rfl, by simp [fail_summary], ?_, ?_, ?_, ?_⟩
      · exact hl1 ▸ pairwise_phase_of_const hk1
      · intro e' st1' h' ev hev
        rw [hl1] at hev
        exact hk1 ev hev
      · intro rs st1' e' st2 h1 h2 ev hev
        exact absurd h1 (by simp)
      · intro rs st1' fs st2 e' st3 h1 h2 h3 ev hev
        exact absurd h1 (by simp)
    | ok ddl_rs =>
      obtain ⟨l2, hl2, hk2⟩ := deploy_functions_trace env st1
      cases hf : deploy_functions env st1 with
      | mk res2 st2 =>
        rw [hf] at hl2
        dsimp only at hl2
        rw [hl1] at hl2
        cases res2 with
        | error e =>
          have hDA : deploy_all env force_recreate enable_rls ⟨[], []⟩ =
              (fail_summary e st2.log, st2) := by
            simp [deploy_all, hd, hf]
          rw [hDA]
          refine ⟨Or.inr rfl, rfl, by simp [fail_summary], ?_, ?_, ?_, ?_⟩
          · rw [hl2]
            exact pairwise_phase_append (pairwise_phase_of_const hk1)
              (pairwise_phase_of_const hk2) (all_idx_le_of_eq hk1 (by omega))
              (fun e he => le_of_eq (hk2 e he).symm)
          · intro e' st1' h' ev hev
            exact absurd h' (by simp)
          · intro rs st1' e' st2' h1 h2 ev hev
            rw [hl2] at hev
            exact all_idx_le_append (all_idx_le_of_eq hk1 (by omega))
              (all_idx_le_of_eq hk2 (by omega)) ev hev
          · intro rs st1' fs st2' e' st3 h1 h2 h3 ev hev
            simp only [Prod.mk.injEq, Except.ok.injEq] at h1
            rw [← h1.2] at h2
            rw [hf] at h2
            exact absurd h2 (by simp)
        | ok fn_rs =>
          obtain ⟨l3, hl3, hk3⟩ := deploy_triggers_trace env st2
          cases ht : deploy_triggers env st2 with
          | mk res3 st3 =>
            rw [ht] at hl3
            dsimp only at hl3
            rw [hl2] at hl3
            cases res3 with
            | error e =>
              have hDA : deploy_all env force_recreate enable_rls ⟨[], []⟩ =
                  (fail_summary e st3.log, st3) := by
                simp [deploy_all, hd, hf, ht]
              rw [hDA]
              refine ⟨Or.inr rfl, rfl, by simp [fail_summary], ?_, ?_, ?_, ?_⟩
              · rw [hl3]
                exact pairwise_phase_append
                  (pairwise_phase_append (pairwise_phase_of_const hk1)
                    (pairwise_phase_of_const hk2) (all_idx_le_of_eq hk1 (by omega))
                    (fun e he => le_of_eq (hk2 e he).symm))
                  (pairwise_phase_of_const hk3)
                  (all_idx_le_append (all_idx_le_of_eq hk1 (by omega))
                    (all_idx_le_of_eq hk2 (by omega)))
                  (fun e he => le_of_eq (hk3 e he).symm)
              · intro e' st1' h' ev hev
                exact absurd h' (by simp)
              · intro rs st1' e' st2' h1 h2 ev hev
                simp only [Prod.mk.injEq, Except.ok.injEq] at h1
                rw [← h1.2] at h2
                rw [hf] at h2
                exact absurd h2 (by simp)
              · intro rs st1' fs st2' e' st3' h1 h2 h3 ev hev
                rw [hl3] at hev
                exact all_idx_le_append
                  (all_idx_le_append (all_idx_le_of_eq hk1 (by omega))
                    (all_idx_le_of_eq hk2 (by omega)))
                  (all_idx_le_of_eq hk3 (by omega)) ev hev
            | ok tr_rs =>
              obtain ⟨l4, hl4, hk4⟩ := deploy_rls_trace_idx env enable_rls st3
              cases hr : deploy_rls env enable_rls st3 with
              | mk res4 st4 =>
                rw [hr] at hl4
                dsimp only at hl4
                rw [hl3] at hl4
                have hpw : st4.trace.Pairwise phase_le := by
                  rw [hl4]
                  exact pairwise_phase_append
                    (pairwise_phase_append
                      (pairwise_phase_append (pairwise_phase_of_const hk1)
                        (pairwise_phase_of_const hk2) (all_idx_le_of_eq hk1 (by omega))
                        (fun e he => le_of_eq (hk2 e he).symm))
                      (pairwise_phase_of_const hk3)
                      (all_idx_le_append (all_idx_le_of_eq hk1 (by omega))
                        (all_idx_le_of_eq hk2 (by omega)))
                      (fun e he => le_of_eq (hk3 e he).symm))
                    (pairwise_phase_of_const hk4)
                    (all_idx_le_append
                      (all_idx_le_append (all_idx_le_of_eq hk1 (by omega))
                        (all_idx_le_of_eq hk2 (by omega)))
                      (all_idx_le_of_eq hk3 (by omega)))
                    (fun e he => le_of_eq (hk4 e he).symm)
                cases res4 with
                | error e =>
                  have hDA : deploy_all env force_recreate enable_rls ⟨[], []⟩ =
                      (fail_summary e st4.log, st4) := by
                    simp [deploy_all, hd, hf, ht, hr]
                  rw [hDA]
                  refine ⟨Or.inr rfl, rfl, by simp [fail_summary], hpw, ?_, ?_, ?_⟩
                  · intro e' st1' h' ev hev
                    exact absurd h' (by simp)
                  · intro rs st1' e' st2' h1 h2 ev hev
                    simp only [Prod.mk.injEq, Except.ok.injEq] at h1
                    rw [← h1.2] at h2
                    rw [hf] at h2
                    exact absurd h2 (by simp)
                  · intro rs st1' fs st2' e' st3' h1 h2 h3 ev hev
                    simp only [Prod.mk.injEq, Except.ok.injEq] at h1
                    rw [← h1.2] at h2
                    rw [hf] at h2
                    simp only [Prod.mk.injEq, Except.ok.injEq] at h2
                    rw [← h2.2] at h3
                    rw [ht] at h3
                    exact absurd h3 (by simp)
                | ok rls_res =>
                  have hDA : deploy_all env force_recreate enable_rls ⟨[], []⟩ =
                      (⟨.success, none, some ddl_rs.length, some fn_rs.length,
                        some tr_rs.length, some enable_rls, st4.log⟩, st4) := by
                    simp [deploy_all, hd, hf, ht, hr]
                  rw [hDA]
                  refine ⟨Or.inl rfl, rfl, by simp, hpw, ?_, ?_, ?_⟩
                  · intro e' st1' h' ev hev
                    exact absurd h' (by simp)
                  · intro rs st1' e' st2' h1 h2 ev hev
                    simp only [Prod.mk.injEq, Except.ok.injEq] at h1
                    rw [← h1.2] at h2
                    rw [hf] at h2
                    exact absurd h2 (by simp)
                  · intro rs st1' fs st2' e' st3' h1 h2 h3 ev hev
                    simp only [Prod.mk.injEq, Except.ok.injEq] at h1
                    rw [← h1.2] at h2
                    rw [hf] at h2
                    simp only [Prod.mk.injEq, Except.ok.injEq] at h2
                    rw [← h2.2] at h3
                    rw [ht] at h3
                    exact absurd h3 (by simp)

/-- An environment in which every script file exists (with empty content)
and the database rejects every executed script. -/
def all_fail_exec_env : ExecEnv :=
  ⟨fun _ _ => true, fun _ _ => "", fun _ => false, fun _ => "execution error"⟩

/-- An environment in which every script file exists (with empty content)
and the database accepts every executed script. -/
def all_ok_exec_env : ExecEnv :=
  ⟨fun _ _ => true, fun _ _ => "", fun _ => true, fun _ => ""⟩

/-- C1 counterexample: when the very first DDL script fails, `deploy_all`
returns the failure summary, and that summary carries no per-phase counts
(the keys are absent), refuting the claim that the aggregate summary
contains per-phase counts whether the run succeeded or failed. -/
theorem deploy_all_failure_summary_lacks_counts :
    (deploy_all all_fail_exec_env false true ⟨[], []⟩).1.status = .failed ∧
    (deploy_all all_fail_exec_env false true ⟨[], []⟩).1.ddl_count = none ∧
    (deploy_all all_fail_exec_env false true ⟨[], []⟩).1.function_count = none ∧
    (deploy_all all_fail_exec_env false true ⟨[], []⟩).1.trigger_count = none := by
  decide

/-- C1 witness: the phase-order theorem applied to a concrete run whose
first DDL script fails: every executed script belongs to the DDL phase and
the trace is phase-ordered. -/
theorem deploy_all_phase_order_witness :
    (∀ ev ∈ ((deploy_all all_fail_exec_env false true ⟨[], []⟩).2).trace,
      phase_idx ev.folder = 0) ∧
    ((deploy_all all_fail_exec_env false true ⟨[], []⟩).2).trace.Pairwise phase_le :=
  ⟨(deploy_all_phase_order_and_summary all_fail_exec_env false true).2.2.2.2.1
      ("execution error")
      ⟨[⟨"DDL/CREATE_company_info_raw.sql", .failed, some ("execution error")⟩],
        [⟨"DDL", "CREATE_company_info_raw.sql", ""⟩]⟩
      rfl,
    (deploy_all_phase_order_and_summary all_fail_exec_env false true).2.2.2.1⟩

/-- C8: with force_recreate=true, `deploy_ddl` prepends exactly the single
`DROP TABLE IF EXISTS <table> CASCADE` statement to each schema script
whose filename resolves through the CREATE_-front/.sql-ending convention
and the static lookup, leaving the script content otherwise unmodified;
the SQL actually executed for every DDL event is exactly this transform of
the loaded file content; and a schema script whose filename does not
resolve is executed completely unmodified and is never treated as an
error. -/
theorem deploy_ddl_force_recreate_transform :
    (∀ (env : ExecEnv) (force_recreate : Bool) (st : DepState),
      deploy_ddl env force_recreate st =
        deploy_phase env ("DDL") (ddl_transform force_recreate) DEPLOYMENT_ORDER st) ∧
    (∀ filename table_name content, extract_table_name filename = some table_name →
      ddl_transform true filename content = drop_sql table_name ++ content) ∧
    (∀ filename content, extract_table_name filename = none →
      ddl_transform true filename content = content) ∧
    (∀ (env : ExecEnv) (order : List (String × String)) (st : DepState), ∃ l,
      ((deploy_phase env ("DDL") (ddl_transform true) order st).2).trace = st.trace ++ l ∧
      ∀ e ∈ l, e.folder = "DDL" ∧
        e.sql = ddl_transform true e.name (env.content ("DDL") e.name)) ∧
    (∀ (env : ExecEnv) (order : List (String × String)) (st : DepState),
      (∀ pr ∈ order, env.file_exists pr.1 pr.2 = true) →
      (∀ ev, env.exec_ok ev = true) →
      ∃ rs st1, deploy_phase env ("DDL") (ddl_transform true) order st = (.ok rs, st1)) := by
  refine ⟨fun env force_recreate st => rfl, ?_, ?_, ?_, ?_⟩
  · intro filename table_name content h
    unfold ddl_transform
    rw [h]
    simp
  · intro filename content h
    unfold ddl_transform
    rw [h]
    simp
  · intro env order st
    exact deploy_phase_trace env ("DDL") (ddl_transform true) order st
  · intro env order st h1 h2
    exact deploy_phase_all_ok env ("DDL") (ddl_transform true) order h1 h2 st

/-- C8 witness: a resolvable schema filename gets exactly the one DROP
statement prepended, an unresolvable one is executed unmodified and the
phase still succeeds. -/
theorem deploy_ddl_force_recreate_transform_witness :
    ddl_transform true ("CREATE_new_agents.sql") ("CREATE TABLE new_agents ();") =
      drop_sql ("public.new_agents") ++ ("CREATE TABLE new_agents ();") ∧
    ddl_transform true ("TRG_new_unified_agents.sql") ("CREATE TRIGGER trg;") =
      "CREATE TRIGGER trg;" ∧
    (∃ rs st1, deploy_phase all_ok_exec_env ("DDL") (ddl_transform true)
      [("DDL", "unmapped_table.sql")] ⟨[], []⟩ = (.ok rs, st1)) :=
  ⟨deploy_ddl_force_recreate_transform.2.1 ("CREATE_new_agents.sql") ("public.new_agents")
      ("CREATE TABLE new_agents ();") (by decide),
    deploy_ddl_force_recreate_transform.2.2.1 ("TRG_new_unified_agents.sql")
      ("CREATE TRIGGER trg;") (by decide),
    deploy_ddl_force_recreate_transform.2.2.2.2 all_ok_exec_env
      [("DDL", "unmapped_table.sql")] ⟨[], []⟩ (fun pr _ => rfl) (fun ev => rfl)⟩

/-- The data-loader environment used by the schema-mismatch evaluation: the
database holds exactly the tables the deployer creates and verifies. -/
def deployer_tables_load_env : LoadEnv :=
  ⟨fun _ _ => true, fun _ _ => "database error", fun _ => true, fun _ => [],
    fun _ => [], fun _ => 0, fun s t => decide ((s, t) ∈ expected_tables)⟩

/-- C4 (code bug): the static CSV mapping sends raw_company_info.csv to
public.company_info_raw, but the deployer itself creates and verifies
bronze.company_info_raw — the destination of the mapping is not one of the
tables the deployer creates and verifies, so loading that file against a
database holding exactly the tables of the deployer always fails.  The second
half of the claim does hold: a filename absent from the mapping is
rejected with a mapping error and nothing is sent to the database. -/
theorem csv_mapping_schema_mismatch :
    CSV_TABLE_MAPPING.lookup ("raw_company_info.csv") = some ("public", "company_info_raw") ∧
    ("public", "company_info_raw") ∉ expected_tables ∧
    extract_table_name ("CREATE_company_info_raw.sql") = some ("bronze.company_info_raw") ∧
    (load_csv deployer_tables_load_env ("raw_company_info.csv") true ⟨[], []⟩).1 =
      .error ("Table public.company_info_raw does not exist. Run DDL deployment first.") ∧
    ((load_csv deployer_tables_load_env ("raw_company_info.csv") true ⟨[], []⟩).2).trace = [] ∧
    (load_csv deployer_tables_load_env ("unmapped.csv") true ⟨[], []⟩).1 =
      .error ("No table mapping found for CSV: unmapped.csv") ∧
    ((load_csv deployer_tables_load_env ("unmapped.csv") true ⟨[], []⟩).2).trace = [] := by
  exact ⟨by decide, by decide, by decide, rfl, by decide, rfl, by decide⟩

/-- C9: a `get_cursor(autocommit=True)` scope sets autocommit on its
checked-out connection and returns it to the pool without ever resetting
the flag, so the pooled connection keeps autocommit enabled; the next
checkout that receives that same pooled connection (here: the very next
one, by the LIFO pool discipline) observes autocommit even though it did
not request it.  The cursor factory set by dict_cursor=True persists the
same way. -/
theorem get_cursor_autocommit_persistence (p : List Conn) (c : Conn) :
    scoped_cursor_pool false true (p ++ [c]) =
      some (p ++ [conn_at_release false true c]) ∧
    (conn_at_release false true c).autocommit = true ∧
    pool_getconn (p ++ [conn_at_release false true c]) =
      some (conn_at_release false true c, p) ∧
    (conn_at_yield false false (conn_at_release false true c)).autocommit = true ∧
    (conn_at_release true false c).cursor_factory = some ("RealDictCursor") ∧
    (conn_at_yield false false (conn_at_release true false c)).cursor_factory =
      some ("RealDictCursor") := by
  refine ⟨?_, ?_, ?_, ?_, ?_, ?_⟩
  · simp [scoped_cursor_pool, pool_getconn, pool_putconn, List.getLast?_concat,
      List.dropLast_concat]
  · simp [conn_at_release, conn_at_yield, conn_checkout_effect]
  · simp [pool_getconn, List.getLast?_concat, List.dropLast_concat]
  · simp [conn_at_release, conn_at_yield, conn_checkout_effect]
  · simp [conn_at_release, conn_at_yield, conn_checkout_effect]
  · simp [conn_at_release, conn_at_yield, conn_checkout_effect]

/-! ## Helper lemmas: data loader traces -/

/-- Does an event invoke a stored procedure? -/
def is_proc_call : LoadEvent → Bool
  | .proc_call _ => true
  | _ => false

/-- Does an event invoke the merge/dedup procedure? -/
def is_merge_call : LoadEvent → Bool
  | .proc_call n => n == "run_unified_merge_batch"
  | _ => false

/-- Is an event a server-side bulk copy? -/
def is_copy_event : LoadEvent → Bool
  | .copy _ _ _ => true
  | _ => false

theorem is_merge_call_of_not_proc {e : LoadEvent} (h : is_proc_call e = false) :
    is_merge_call e = false := by
  cases e <;> simp_all [is_proc_call, is_merge_call]

theorem run_effect_state (env : LoadEnv) (e : LoadEvent) (st : LoadState) :
    ((run_effect env e st).2).trace = st.trace ++ [e] ∧
      ((run_effect env e st).2).log = st.log := by
  unfold run_effect
  dsimp only
  split <;> exact ⟨rfl, rfl⟩

theorem insert_batch_state (env : LoadEnv) (schema table : String) (columns : List String)
    (rows : List Row) (st : LoadState) :
    ∃ l, ((insert_batch env schema table columns rows st).2).trace = st.trace ++ l ∧
      ((insert_batch env schema table columns rows st).2).log = st.log ∧
      ∀ e ∈ l, ∃ rws, e = .insert_batch schema table (insert_sql schema table columns) rws := by
  unfold insert_batch
  split
  · exact ⟨[], by simp, rfl, by simp⟩
  · obtain ⟨h1, h2⟩ := run_effect_state env
      (.insert_batch schema table (insert_sql schema table columns) rows) st
    exact ⟨[.insert_batch schema table (insert_sql schema table columns) rows], h1, h2,
      fun e he => by simp only [List.mem_singleton] at he; exact ⟨rows, he⟩⟩

theorem insert_chunks_state (env : LoadEnv) (schema table : String) (columns : List String)
    (batch_size : Nat) (rows : List Row) :
    ∀ (batch : List Row) (total : Nat) (st : LoadState), ∃ l,
      ((insert_chunks env schema table columns batch_size rows batch total st).2).trace =
        st.trace ++ l ∧
      ((insert_chunks env schema table columns batch_size rows batch total st).2).log = st.log ∧
      ∀ e ∈ l, ∃ rws, e = .insert_batch schema table (insert_sql schema table columns) rws := by
  induction rows with
  | nil =>
    intro batch total st
    unfold insert_chunks
    split
    · exact ⟨[], by simp, rfl, by simp⟩
    · obtain ⟨l, h1, h2, h3⟩ := insert_batch_state env schema table columns batch st
      cases hib : insert_batch env schema table columns batch st with
      | mk res st1 =>
        rw [hib] at h1 h2
        dsimp only at h1 h2
        cases res <;> exact ⟨l, by simp [hib, h1], by simp [hib, h2], h3⟩
  | cons r rest ih =>
    intro batch total st
    unfold insert_chunks
    dsimp only
    by_cases hbs : batch_size ≤ (batch ++ [r]).length
    · simp only [if_pos hbs]
      obtain ⟨lb, hb1, hb2, hb3⟩ := insert_batch_state env schema table columns (batch ++ [r]) st
      cases hib : insert_batch env schema table columns (batch ++ [r]) st with
      | mk res st1 =>
        rw [hib] at hb1 hb2
        dsimp only at hb1 hb2
        cases res with
        | ok u =>
          obtain ⟨l, h1, h2, h3⟩ := ih [] (total + (batch ++ [r]).length) st1
          refine ⟨lb ++ l, ?_, ?_, ?_⟩
          · rw [h1, hb1, List.append_assoc]
          · rw [h2, hb2]
          · intro e he
            rcases List.mem_append.mp he with h | h
            · exact hb3 e h
            · exact h3 e h
        | error e => exact ⟨lb, hb1, hb2, hb3⟩
    · simp only [if_neg hbs]
      exact ih (batch ++ [r]) total st

theorem load_csv_with_insert_state (env : LoadEnv) (file schema table : String)
    (batch_size : Nat) (st : LoadState) :
    ∃ l, ((load_csv_with_insert env file schema table batch_size st).2).trace = st.trace ++ l ∧
      ((load_csv_with_insert env file schema table batch_size st).2).log = st.log ∧
      ∀ e ∈ l, ∃ rws,
        e = .insert_batch schema table (insert_sql schema table (env.csv_columns file)) rws := by
  unfold load_csv_with_insert
  dsimp only
  by_cases hc : (env.csv_columns file).isEmpty = true
  · simp only [if_pos hc]
    refine ⟨[], ?_, ?_, ?_⟩ <;> simp
  · simp only [if_neg hc]
    exact insert_chunks_state env schema table (env.csv_columns file) batch_size
      (env.csv_data file) [] 0 st

theorem load_csv_with_copy_eq (env : LoadEnv) (file schema table : String) (st : LoadState) :
    load_csv_with_copy env file schema table st =
      if env.ok (.copy schema table file) st.trace.length then
        (.ok (env.copy_rowcount file), ⟨st.log, st.trace ++ [.copy schema table file]⟩)
      else
        (.error (env.err (.copy schema table file) st.trace.length),
          ⟨st.log, st.trace ++ [.copy schema table file]⟩) := by
  by_cases h : env.ok (.copy schema table file) st.trace.length <;>
    simp [load_csv_with_copy, run_effect, h]

theorem load_csv_events (env : LoadEnv) (file : String) (use_copy : Bool) (st : LoadState) :
    ∃ l r, ((load_csv env file use_copy st).2).trace = st.trace ++ l ∧
      ((load_csv env file use_copy st).2).log = st.log ++ [r] ∧
      ∀ e ∈ l, is_proc_call e = false := by
  unfold load_csv
  cases hm : CSV_TABLE_MAPPING.lookup file with
  | none =>
    dsimp only
    exact ⟨[], ⟨file, none, .failed, none,
      some ("No table mapping found for CSV: " ++ file)⟩, by simp, rfl, by simp⟩
  | some pr =>
    obtain ⟨schema, table⟩ := pr
    dsimp only
    by_cases hf : env.file_exists file = true
    · simp only [hf, if_true]
      by_cases ht : env.table_exists schema table = true
      · simp only [ht, if_true]
        cases use_copy with
        | false =>
          simp only [Bool.false_eq_true, if_false]
          obtain ⟨l, h1, h2, h3⟩ :=
            load_csv_with_insert_state env file schema table default_batch_size st
          have hnp : ∀ e ∈ l, is_proc_call e = false := fun e he => by
            obtain ⟨rws, hrw⟩ := h3 e he
            rw [hrw]
            rfl
          cases hins : load_csv_with_insert env file schema table default_batch_size st with
          | mk res st1 =>
            rw [hins] at h1 h2
            dsimp only at h1 h2
            cases res with
            | ok n =>
              exact ⟨l, ⟨file, some (schema ++ "." ++ table), .success, some n, none⟩,
                by simp [h1], by simp [h2], hnp⟩
            | error e =>
              exact ⟨l, ⟨file, none, .failed, none, some e⟩,
                by simp [h1], by simp [h2], hnp⟩
        | true =>
          simp only [if_true]
          rw [load_csv_with_copy_eq]
          by_cases hcp : env.ok (.copy schema table file) st.trace.length = true
          · simp only [hcp, if_true]
            exact ⟨[.copy schema table file],
              ⟨file, some (schema ++ "." ++ table), .success, some (env.copy_rowcount file), none⟩,
              by simp, by simp, by simp [is_proc_call]⟩
          · simp only [hcp, Bool.false_eq_true, if_false]
            obtain ⟨l, h1, h2, h3⟩ := load_csv_with_insert_state env file schema table
              default_batch_size ⟨st.log, st.trace ++ [.copy schema table file]⟩
            have hnp : ∀ e ∈ l, is_proc_call e = false := fun e he => by
              obtain ⟨rws, hrw⟩ := h3 e he
              rw [hrw]
              rfl
            cases hins : load_csv_with_insert env file schema table default_batch_size
                ⟨st.log, st.trace ++ [.copy schema table file]⟩ with
            | mk res st1 =>
              rw [hins] at h1 h2
              dsimp only at h1 h2
              cases res with
              | ok n =>
                refine ⟨.copy schema table file :: l,
                  ⟨file, some (schema ++ "." ++ table), .success, some n, none⟩,
                  ?_, by simp [h2], ?_⟩
                · simp only [h1, List.append_assoc, List.singleton_append]
                · intro e he
                  rcases List.mem_cons.mp he with h | h
                  · subst h; rfl
                  · exact hnp e h
              | error e =>
                refine ⟨.copy schema table file :: l, ⟨file, none, .failed, none, some e⟩,
                  ?_, by simp [h2], ?_⟩
                · simp only [h1, List.append_assoc, List.singleton_append]
                · intro e' he'
                  rcases List.mem_cons.mp he' with h | h
                  · subst h; rfl
                  · exact hnp e' h
      · simp only [ht, Bool.false_eq_true, if_false]
        exact ⟨[], ⟨file, none, .failed, none, some ("Table " ++ schema ++ "." ++ table ++
          " does not exist. Run DDL deployment first.")⟩, by simp, rfl, by simp⟩
    · simp only [hf, Bool.false_eq_true, if_false]
      exact ⟨[], ⟨file, none, .failed, none, some ("CSV file not found: " ++ file)⟩,
        by simp, rfl, by simp⟩

theorem load_all_loop_events (env : LoadEnv) (use_copy : Bool) (files : List String) :
    ∀ (results : List LoadResult) (total : Nat) (st : LoadState), ∃ l,
      ((load_all_loop env use_copy files results total st).2).trace = st.trace ++ l ∧
      ∀ e ∈ l, is_proc_call e = false := by
  induction files with
  | nil => exact fun results total st => ⟨[], by simp [load_all_loop], by simp⟩
  | cons f rest ih =>
    intro results total st
    unfold load_all_loop
    by_cases hf : env.file_exists f = true
    · simp only [hf, if_true]
      obtain ⟨l1, r1, hc1, hc2, hc3⟩ := load_csv_events env f use_copy st
      cases hc : load_csv env f use_copy st with
      | mk res st1 =>
        rw [hc] at hc1
        dsimp only at hc1
        cases res with
        | ok r =>
          obtain ⟨l2, h21, h22⟩ := ih (results ++ [r]) (total + r.rows_loaded.getD 0) st1
          refine ⟨l1 ++ l2, ?_, ?_⟩
          · rw [h21, hc1, List.append_assoc]
          · intro e he
            rcases List.mem_append.mp he with h | h
            · exact hc3 e h
            · exact h22 e h
        | error e => exact ⟨l1, hc1, hc3⟩
    · simp only [hf, Bool.false_eq_true, if_false]
      exact ih results total st

/-- C2: in `run_data_pipeline`, if CSV loading does not finish with status
success, no stored procedure is invoked at all; and if the reconciliation
procedure call fails, the merge procedure call count in the whole run is
zero. -/
theorem run_data_pipeline_strict_sequencing (env : PipelineEnv) :
    ((load_all_csvs env.load true ⟨[], []⟩).1.status ≠ .success →
      ((run_data_pipeline env ⟨[], []⟩).2).trace.countP is_proc_call = 0) ∧
    (∀ ls st1, load_all_csvs env.load true ⟨[], []⟩ = (ls, st1) → ls.status = .success →
      env.load.ok (.proc_call ("run_unified_member_pipeline")) st1.trace.length = false →
      ((run_data_pipeline env ⟨[], []⟩).2).trace.countP is_merge_call = 0) := by
  obtain ⟨l0, hl0, hnp0⟩ :=
    load_all_loop_events env.load true (CSV_TABLE_MAPPING.map Prod.fst) [] 0 ⟨[], []⟩
  cases hload : load_all_csvs env.load true ⟨[], []⟩ with
  | mk ls st1 =>
    have h' : load_all_loop env.load true (CSV_TABLE_MAPPING.map Prod.fst) [] 0 ⟨[], []⟩ =
        (ls, st1) := hload
    rw [h'] at hl0
    dsimp only at hl0
    simp only [List.nil_append] at hl0
    constructor
    · intro hne
      have hne' : ¬ ls.status = .success := by simpa using hne
      have hrun : run_data_pipeline env ⟨[], []⟩ =
          (⟨.failed, some ("CSV loading failed"), none, none⟩, st1) := by
        unfold run_data_pipeline
        rw [hload]
        dsimp only
        rw [if_neg hne']
      rw [hrun]
      dsimp only
      rw [hl0]
      exact List.countP_eq_zero.mpr (fun e he => by simp [hnp0 e he])
    · intro ls' st1' h1 h2 h3
      cases h1
      have hrun : run_data_pipeline env ⟨[], []⟩ =
          (⟨.failed,
            some (env.load.err (.proc_call ("run_unified_member_pipeline")) st1.trace.length),
            none, none⟩,
            ⟨st1.log, st1.trace ++ [.proc_call ("run_unified_member_pipeline")]⟩) := by
        unfold run_data_pipeline
        rw [hload]
        dsimp only
        rw [if_pos h2]
        unfold run_effect
        dsimp only
        simp only [h3, Bool.false_eq_true, if_false]
      rw [hrun]
      dsimp only
      rw [List.countP_append, hl0]
      have h0 : List.countP is_merge_call l0 = 0 :=
        List.countP_eq_zero.mpr
          (fun e he => by simp [is_merge_call_of_not_proc (hnp0 e he)])
      rw [h0]
      decide

/-- A pipeline environment in which the mapped CSV files are present but
their destination tables are missing, so CSV loading fails. -/
def csv_fail_env : PipelineEnv :=
  ⟨⟨fun _ _ => true, fun _ _ => "database error", fun _ => true, fun _ => [], fun _ => [],
    fun _ => 0, fun _ _ => false⟩, none⟩

/-- A pipeline environment in which no CSV file is on disk (so loading
trivially succeeds) and every database call fails, so the reconciliation
procedure call fails. -/
def proc_fail_env : PipelineEnv :=
  ⟨⟨fun _ _ => false, fun _ _ => "procedure failed", fun _ => false, fun _ => [], fun _ => [],
    fun _ => 0, fun _ _ => false⟩, none⟩

/-- C2 witness: a run whose CSV loading fails invokes no procedure, and a
run whose reconciliation procedure fails never invokes the merge
procedure. -/
theorem run_data_pipeline_strict_sequencing_witness :
    ((run_data_pipeline csv_fail_env ⟨[], []⟩).2).trace.countP is_proc_call = 0 ∧
    ((run_data_pipeline proc_fail_env ⟨[], []⟩).2).trace.countP is_merge_call = 0 :=
  ⟨(run_data_pipeline_strict_sequencing csv_fail_env).1 (by decide),
    (run_data_pipeline_strict_sequencing proc_fail_env).2
      ⟨.success, none, some 0, some 0, []⟩ ⟨[], []⟩ rfl rfl rfl⟩

/-- C5: `load_all_csvs` iterates the static mapping in declared order; a
mapped file that does not exist on disk is skipped and the iteration
continues unchanged; a load failure for a present file makes the loop
return the failed summary immediately — independently of how many files
remain — retaining the load log accumulated so far. -/
theorem load_all_csvs_skip_and_abort :
    (∀ (env : LoadEnv) (use_copy : Bool) (st : LoadState),
      load_all_csvs env use_copy st =
        load_all_loop env use_copy (["raw_company_info.csv", "new_agents.csv"]) [] 0 st) ∧
    (∀ (env : LoadEnv) (use_copy : Bool) (f : String) (rest : List String)
      (results : List LoadResult) (total : Nat) (st : LoadState),
      env.file_exists f = false →
      load_all_loop env use_copy (f :: rest) results total st =
        load_all_loop env use_copy rest results total st) ∧
    (∀ (env : LoadEnv) (use_copy : Bool) (f : String) (rest : List String)
      (results : List LoadResult) (total : Nat) (st : LoadState) (e : String) (st1 : LoadState),
      env.file_exists f = true →
      load_csv env f use_copy st = (.error e, st1) →
      load_all_loop env use_copy (f :: rest) results total st =
        (⟨.failed, some e, none, none, st1.log⟩, st1)) := by
  have hcons : ∀ (env : LoadEnv) (use_copy : Bool) (f : String) (rest : List String)
      (results : List LoadResult) (total : Nat) (st : LoadState),
      load_all_loop env use_copy (f :: rest) results total st =
        if env.file_exists f = true then
          match load_csv env f use_copy st with
          | (.ok r, st1) =>
            load_all_loop env use_copy rest (results ++ [r]) (total + r.rows_loaded.getD 0) st1
          | (.error e, st1) => (⟨.failed, some e, none, none, st1.log⟩, st1)
        else load_all_loop env use_copy rest results total st :=
    fun env use_copy f rest results total st => rfl
  refine ⟨fun env use_copy st => rfl, ?_, ?_⟩
  · intro env use_copy f rest results total st h
    rw [hcons]
    simp [h]
  · intro env use_copy f rest results total st e st1 hf hl
    rw [hcons]
    simp [hf, hl]

/-- The loader environment of the C5 witness: the first mapped file is
missing on disk, the second is present but its destination table does not
exist. -/
def skip_then_fail_env : LoadEnv :=
  ⟨fun _ _ => true, fun _ _ => "load error", fun f => f == "new_agents.csv",
    fun _ => [], fun _ => [], fun _ => 0, fun _ _ => false⟩

/-- C5 witness: the missing first file is skipped and iteration continues;
the failing second file aborts with the failed summary retaining the
accumulated log. -/
theorem load_all_csvs_skip_and_abort_witness :
    load_all_loop skip_then_fail_env true (["raw_company_info.csv", "new_agents.csv"]) [] 0
        ⟨[], []⟩ =
      load_all_loop skip_then_fail_env true (["new_agents.csv"]) [] 0 ⟨[], []⟩ ∧
    load_all_loop skip_then_fail_env true (["new_agents.csv"]) [] 0 ⟨[], []⟩ =
      (⟨.failed, some ("Table public.new_agents does not exist. Run DDL deployment first."),
        none, none,
        [⟨"new_agents.csv", none, .failed, none,
          some ("Table public.new_agents does not exist. Run DDL deployment first.")⟩]⟩,
        ⟨[⟨"new_agents.csv", none, .failed, none,
          some ("Table public.new_agents does not exist. Run DDL deployment first.")⟩], []⟩) :=
  ⟨load_all_csvs_skip_and_abort.2.1 skip_then_fail_env true ("raw_company_info.csv")
      (["new_agents.csv"]) [] 0 ⟨[], []⟩ (by decide),
    load_all_csvs_skip_and_abort.2.2 skip_then_fail_env true ("new_agents.csv") [] [] 0
      ⟨[], []⟩ ("Table public.new_agents does not exist. Run DDL deployment first.")
      ⟨[⟨"new_agents.csv", none, .failed, none,
        some ("Table public.new_agents does not exist. Run DDL deployment first.")⟩], []⟩
      (by decide) rfl⟩

theorem insert_sql_conflict_ignore (schema table : String) (columns : List String) :
    ∃ p q, (insert_sql schema table columns).data =
      p ++ (("ON CONFLICT DO NOTHING").data ++ q) := by
  have h : insert_sql schema table columns =
      ("\n            INSERT INTO " ++ schema ++ "." ++ table ++ " (" ++
        String.intercalate (", ") columns ++ ")\n            VALUES (" ++
        String.intercalate (", ") (columns.map (fun _ => "%s"))) ++
        ")\n            ON CONFLICT DO NOTHING\n        " := rfl
  rw [h, String.data_append]
  refine ⟨("\n            INSERT INTO " ++ schema ++ "." ++ table ++ " (" ++
      String.intercalate (", ") columns ++ ")\n            VALUES (" ++
      String.intercalate (", ") (columns.map (fun _ => "%s"))).data ++
      (")\n            ").data, ("\n        ").data, ?_⟩
  rw [List.append_assoc]
  congr 1

/-- C3: in `load_csv` with use_copy=true (the copy path resolved, its file
present and its destination table existing), exactly one bulk-copy attempt
is issued; if it succeeds there is no fallback; on any bulk failure exactly
one fallback to the batched insert path (at the default batch size 1000,
with the conflict-ignoring INSERT statement) is attempted; if the fallback
also fails the error propagates to the caller; and a per-file result is
appended to the load log whatever the outcome. -/
theorem load_csv_single_fallback (env : LoadEnv) (file schema table : String) (st : LoadState)
    (hmap : CSV_TABLE_MAPPING.lookup file = some (schema, table))
    (hfile : env.file_exists file = true)
    (htab : env.table_exists schema table = true) :
    (env.ok (.copy schema table file) st.trace.length = true →
      load_csv env file true st =
        (.ok ⟨file, some (schema ++ "." ++ table), .success,
          some (env.copy_rowcount file), none⟩,
          ⟨st.log ++ [⟨file, some (schema ++ "." ++ table), .success,
            some (env.copy_rowcount file), none⟩],
            st.trace ++ [.copy schema table file]⟩)) ∧
    (env.ok (.copy schema table file) st.trace.length = false →
      (∀ n st2, load_csv_with_insert env file schema table default_batch_size
          ⟨st.log, st.trace ++ [.copy schema table file]⟩ = (.ok n, st2) →
        load_csv env file true st =
          (.ok ⟨file, some (schema ++ "." ++ table), .success, some n, none⟩,
            ⟨st2.log ++ [⟨file, some (schema ++ "." ++ table), .success, some n, none⟩],
              st2.trace⟩)) ∧
      (∀ e st2, load_csv_with_insert env file schema table default_batch_size
          ⟨st.log, st.trace ++ [.copy schema table file]⟩ = (.error e, st2) →
        load_csv env file true st =
          (.error e, ⟨st2.log ++ [⟨file, none, .failed, none, some e⟩], st2.trace⟩)) ∧
      (∃ l, ((load_csv env file true st).2).trace =
          (st.trace ++ [.copy schema table file]) ++ l ∧
        ∀ ev ∈ l, ∃ rws, ev = .insert_batch schema table
          (insert_sql schema table (env.csv_columns file)) rws)) ∧
    ((load_csv env file true st).2).trace.countP is_copy_event =
      st.trace.countP is_copy_event + 1 ∧
    (∃ r, ((load_csv env file true st).2).log = st.log ++ [r]) ∧
    (∀ (schema' table' : String) (columns : List String), ∃ p q,
      (insert_sql schema' table' columns).data =
        p ++ (("ON CONFLICT DO NOTHING").data ++ q)) := by
  by_cases hcp : env.ok (.copy schema table file) st.trace.length = true
  · have hc : load_csv_with_copy env file schema table st =
        (.ok (env.copy_rowcount file), ⟨st.log, st.trace ++ [.copy schema table file]⟩) := by
      rw [load_csv_with_copy_eq]
      simp [hcp]
    have hmain : load_csv env file true st =
        (.ok ⟨file, some (schema ++ "." ++ table), .success,
          some (env.copy_rowcount file), none⟩,
          ⟨st.log ++ [⟨file, some (schema ++ "." ++ table), .success,
            some (env.copy_rowcount file), none⟩],
            st.trace ++ [.copy schema table file]⟩) := by
      unfold load_csv
      rw [hmap]
      dsimp only
      rw [if_pos hfile, if_pos htab, if_pos rfl, hc]
    refine ⟨fun _ => hmain, fun h => absurd hcp (by simp [h]), ?_, ?_, ?_⟩
    · rw [hmain]
      dsimp only
      rw [List.countP_append]
      simp [is_copy_event]
    · exact ⟨⟨file, some (schema ++ "." ++ table), .success,
        some (env.copy_rowcount file), none⟩, by rw [hmain]⟩
    · exact fun s t c => insert_sql_conflict_ignore s t c
  · have hcp' : env.ok (.copy schema table file) st.trace.length = false := by
      simpa using hcp
    have hc : load_csv_with_copy env file schema table st =
        (.error (env.err (.copy schema table file) st.trace.length),
          ⟨st.log, st.trace ++ [.copy schema table file]⟩) := by
      rw [load_csv_with_copy_eq]
      simp [hcp']
    obtain ⟨l, hI1, hI2, hI3⟩ := load_csv_with_insert_state env file schema table
      default_batch_size ⟨st.log, st.trace ++ [.copy schema table file]⟩
    cases hins : load_csv_with_insert env file schema table default_batch_size
        ⟨st.log, st.trace ++ [.copy schema table file]⟩ with
    | mk res st2 =>
      rw [hins] at hI1 hI2
      dsimp only at hI1 hI2
      cases res with
      | ok n =>
        have hmain : load_csv env file true st =
            (.ok ⟨file, some (schema ++ "." ++ table), .success, some n, none⟩,
              ⟨st2.log ++ [⟨file, some (schema ++ "." ++ table), .success, some n, none⟩],
                st2.trace⟩) := by
          unfold load_csv
          rw [hmap]
          dsimp only
          rw [if_pos hfile, if_pos htab, if_pos rfl, hc]
          dsimp only
          rw [hins]
        refine ⟨fun h => absurd h hcp, ?_, ?_, ?_, ?_⟩
        · intro _
          refine ⟨?_, ?_, ?_⟩
          · intro n' st2' h'
            simp only [Prod.mk.injEq, Except.ok.injEq] at h'
            obtain ⟨hn, hst⟩ := h'
            subst hn
            subst hst
            exact hmain
          · intro e' st2' h'
            exact absurd h' (by simp)
          · exact ⟨l, by rw [hmain]; exact hI1, hI3⟩
        · rw [hmain]
          dsimp only
          rw [hI1, List.countP_append, List.countP_append]
          have h0 : List.countP is_copy_event l = 0 :=
            List.countP_eq_zero.mpr (fun ev hev => by
              obtain ⟨rws, hrw⟩ := hI3 ev hev
              simp [hrw, is_copy_event])
          rw [h0]
          simp [is_copy_event]
        · exact ⟨⟨file, some (schema ++ "." ++ table), .success, some n, none⟩,
            by rw [hmain]; dsimp only; rw [hI2]⟩
        · exact fun s t c => insert_sql_conflict_ignore s t c
      | error e =>
        have hmain : load_csv env file true st =
            (.error e, ⟨st2.log ++ [⟨file, none, .failed, none, some e⟩], st2.trace⟩) := by
          unfold load_csv
          rw [hmap]
          dsimp only
          rw [if_pos hfile, if_pos htab, if_pos rfl, hc]
          dsimp only
          rw [hins]
        refine ⟨fun h => absurd h hcp, ?_, ?_, ?_, ?_⟩
        · intro _
          refine ⟨?_, ?_, ?_⟩
          · intro n' st2' h'
            exact absurd h' (by simp)
          · intro e' st2' h'
            simp only [Prod.mk.injEq, Except.error.injEq] at h'
            obtain ⟨he, hst⟩ := h'
            subst he
            subst hst
            exact hmain
          · exact ⟨l, by rw [hmain]; exact hI1, hI3⟩
        · rw [hmain]
          dsimp only
          rw [hI1, List.countP_append, List.countP_append]
          have h0 : List.countP is_copy_event l = 0 :=
            List.countP_eq_zero.mpr (fun ev hev => by
              obtain ⟨rws, hrw⟩ := hI3 ev hev
              simp [hrw, is_copy_event])
          rw [h0]
          simp [is_copy_event]
        · exact ⟨⟨file, none, .failed, none, some e⟩,
            by rw [hmain]; dsimp only; rw [hI2]⟩
        · exact fun s t c => insert_sql_conflict_ignore s t c

/-- A loader environment whose bulk-copy path always fails while every
other database operation succeeds: the mapped file is present with three
data rows under a single header column, and the destination table
exists. -/
def copy_fails_env : LoadEnv :=
  ⟨fun e _ => match e with | .copy _ _ _ => false | _ => true,
    fun _ _ => "copy failed", fun _ => true, fun _ => ["id"],
    fun _ => [[("id", "1")], [("id", "2")], [("id", "3")]],
    fun _ => 0, fun _ _ => true⟩

/-- C3 witness: with the bulk path failing, the single fallback loads the
three rows through one conflict-ignoring insert batch, and the per-file
success result is appended to the load log. -/
theorem load_csv_single_fallback_witness :
    load_csv copy_fails_env ("new_agents.csv") true ⟨[], []⟩ =
      (.ok ⟨"new_agents.csv", some ("public" ++ "." ++ "new_agents"), .success, some 3, none⟩,
        ⟨[⟨"new_agents.csv", some ("public" ++ "." ++ "new_agents"), .success, some 3, none⟩],
          [.copy ("public") ("new_agents") ("new_agents.csv"),
            .insert_batch ("public") ("new_agents")
              (insert_sql ("public") ("new_agents") (["id"]))
              ([[("id", "1")], [("id", "2")], [("id", "3")]])]⟩) :=
  ((load_csv_single_fallback copy_fails_env ("new_agents.csv") ("public") ("new_agents")
      ⟨[], []⟩ rfl rfl rfl).2.1 rfl).1 3
    ⟨[], [.copy ("public") ("new_agents") ("new_agents.csv"),
      .insert_batch ("public") ("new_agents")
        (insert_sql ("public") ("new_agents") (["id"]))
        ([[("id", "1")], [("id", "2")], [("id", "3")]])]⟩ rfl

theorem verify_tables_loop_flag (env : VerifyEnv) :
    ∀ (l : List (String × String)) (flag : Bool),
      (verify_tables_loop env l flag).2 =
        (flag && l.all (fun p => db_table_exists env p.2 p.1)) := by
  intro l
  induction l with
  | nil => intro flag; simp [verify_tables_loop]
  | cons p rest ih =>
    intro flag
    unfold verify_tables_loop
    dsimp only
    cases hrec : verify_tables_loop env rest
        (if db_table_exists env p.2 p.1 then flag else false) with
    | mk lst flag2 =>
      have hsnd := ih (if db_table_exists env p.2 p.1 then flag else false)
      rw [hrec] at hsnd
      dsimp only at hsnd
      by_cases hex : db_table_exists env p.2 p.1 = true
      · simp only [hex, if_true] at hsnd ⊢
        simp [hsnd, List.all_cons, hex]
      · have hex' : db_table_exists env p.2 p.1 = false := by simpa using hex
        simp only [hex', Bool.false_eq_true, if_false] at hsnd ⊢
        simp [hsnd, List.all_cons, hex']

theorem verify_funcs_loop_flag (env : VerifyEnv) :
    ∀ (l : List String) (flag : Bool),
      (verify_funcs_loop env l flag).2 =
        (flag && l.all (fun f => env.func_query_ok f && env.func_in_catalog f)) := by
  intro l
  induction l with
  | nil => intro flag; simp [verify_funcs_loop]
  | cons f rest ih =>
    intro flag
    unfold verify_funcs_loop
    dsimp only
    by_cases hq : env.func_query_ok f = true
    · simp only [hq, if_true]
      cases hrec : verify_funcs_loop env rest
          (if env.func_in_catalog f then flag else false) with
      | mk lst flag2 =>
        have hsnd := ih (if env.func_in_catalog f then flag else false)
        rw [hrec] at hsnd
        dsimp only at hsnd
        by_cases hex : env.func_in_catalog f = true
        · simp only [hex, if_true] at hsnd ⊢
          simp [hsnd, List.all_cons, hq, hex]
        · have hex' : env.func_in_catalog f = false := by simpa using hex
          simp only [hex', Bool.false_eq_true, if_false] at hsnd ⊢
          simp [hsnd, List.all_cons, hex']
    · have hq' : env.func_query_ok f = false := by simpa using hq
      simp only [hq', Bool.false_eq_true, if_false]
      cases hrec : verify_funcs_loop env rest false with
      | mk lst flag2 =>
        have hsnd := ih false
        rw [hrec] at hsnd
        dsimp only at hsnd
        simp [hsnd, List.all_cons, hq']

theorem verify_tables_loop_entries (env : VerifyEnv) :
    ∀ (l : List (String × String)) (flag : Bool),
      (verify_tables_loop env l flag).1 = l.map (fun p => (p.1 ++ "." ++ p.2,
        (⟨db_table_exists env p.2 p.1,
          if db_table_exists env p.2 p.1 then db_get_row_count env p.2 p.1 else 0⟩
            : TableCheck))) := by
  intro l
  induction l with
  | nil => intro flag; simp [verify_tables_loop]
  | cons p rest ih =>
    intro flag
    unfold verify_tables_loop
    dsimp only
    cases hrec : verify_tables_loop env rest
        (if db_table_exists env p.2 p.1 then flag else false) with
    | mk lst flag2 =>
      have hfst := ih (if db_table_exists env p.2 p.1 then flag else false)
      rw [hrec] at hfst
      dsimp only at hfst
      simp [hfst]

theorem verify_funcs_loop_entries (env : VerifyEnv) :
    ∀ (l : List String) (flag : Bool),
      (verify_funcs_loop env l flag).1 =
        l.map (fun f => (f, env.func_query_ok f && env.func_in_catalog f)) := by
  intro l
  induction l with
  | nil => intro flag; simp [verify_funcs_loop]
  | cons f rest ih =>
    intro flag
    unfold verify_funcs_loop
    dsimp only
    by_cases hq : env.func_query_ok f = true
    · simp only [hq, if_true]
      cases hrec : verify_funcs_loop env rest
          (if env.func_in_catalog f then flag else false) with
      | mk lst flag2 =>
        have hfst := ih (if env.func_in_catalog f then flag else false)
        rw [hrec] at hfst
        dsimp only at hfst
        simp [hfst, hq]
    · have hq' : env.func_query_ok f = false := by simpa using hq
      simp only [hq', Bool.false_eq_true, if_false]
      cases hrec : verify_funcs_loop env rest false with
      | mk lst flag2 =>
        have hfst := ih false
        rw [hrec] at hfst
        dsimp only at hfst
        simp [hfst, hq']

/-- C6: `verify_deployment` is read-only (the deployer state is returned
untouched) and idempotent (a second call on the unchanged database yields
the identical report); it never raises when an expected object is missing
— every expected table and function is recorded in the report with its
existence flag — and the `all_verified` flag is true exactly when every
expected table exists and every function catalog check both succeeds and
finds its function. -/
theorem verify_deployment_readonly_idempotent (env : VerifyEnv) (st : DepState) :
    (verify_deployment env st).2 = st ∧
    verify_deployment env ((verify_deployment env st).2) = verify_deployment env st ∧
    ((verify_deployment env st).1.all_verified = true ↔
      ((∀ p ∈ expected_tables, db_table_exists env p.2 p.1 = true) ∧
        (∀ f ∈ expected_functions,
          env.func_query_ok f = true ∧ env.func_in_catalog f = true))) ∧
    (∀ p ∈ expected_tables,
      (p.1 ++ "." ++ p.2,
        (⟨db_table_exists env p.2 p.1,
          if db_table_exists env p.2 p.1 then db_get_row_count env p.2 p.1 else 0⟩
            : TableCheck)) ∈ (verify_deployment env st).1.tables) ∧
    (∀ f ∈ expected_functions,
      (f, env.func_query_ok f && env.func_in_catalog f) ∈
        (verify_deployment env st).1.functions) := by
  cases h1 : verify_tables_loop env expected_tables true with
  | mk tl flag1 =>
    cases h2 : verify_funcs_loop env expected_functions flag1 with
    | mk fl flag2 =>
      have hver : verify_deployment env st = (⟨tl, fl, flag2⟩, st) := by
        unfold verify_deployment
        rw [h1]
        dsimp only
        rw [h2]
      have hflag1 : flag1 = (true && expected_tables.all
          (fun p => db_table_exists env p.2 p.1)) := by
        have h := verify_tables_loop_flag env expected_tables true
        rw [h1] at h
        exact h
      have hflag2 : flag2 = (flag1 && expected_functions.all
          (fun f => env.func_query_ok f && env.func_in_catalog f)) := by
        have h := verify_funcs_loop_flag env expected_functions flag1
        rw [h2] at h
        exact h
      have htl : tl = expected_tables.map (fun p => (p.1 ++ "." ++ p.2,
          (⟨db_table_exists env p.2 p.1,
            if db_table_exists env p.2 p.1 then db_get_row_count env p.2 p.1 else 0⟩
              : TableCheck))) := by
        have h := verify_tables_loop_entries env expected_tables true
        rw [h1] at h
        exact h
      have hfl : fl = expected_functions.map
          (fun f => (f, env.func_query_ok f && env.func_in_catalog f)) := by
        have h := verify_funcs_loop_entries env expected_functions flag1
        rw [h2] at h
        exact h
      refine ⟨by rw [hver], by rw [hver]; dsimp only; exact hver, ?_, ?_, ?_⟩
      · rw [hver]
        dsimp only
        rw [hflag2, hflag1]
        simp [List.all_eq_true]
      · intro p hp
        rw [hver]
        dsimp only
        rw [htl]
        exact List.mem_map_of_mem _ hp
      · intro f hf
        rw [hver]
        dsimp only
        rw [hfl]
        exact List.mem_map_of_mem _ hf

/-- A catalog environment in which every query succeeds and every expected
object exists. -/
def all_ok_verify_env : VerifyEnv :=
  ⟨fun _ _ => true, fun _ _ => true, fun _ _ => true, fun _ _ => 0,
    fun _ => true, fun _ => true⟩

/-- C6 witness: a second verification call on an unchanged database yields
the identical report, and the first expected table is recorded in it. -/
theorem verify_deployment_readonly_idempotent_witness :
    verify_deployment all_ok_verify_env
        ((verify_deployment all_ok_verify_env ⟨[], []⟩).2) =
      verify_deployment all_ok_verify_env ⟨[], []⟩ ∧
    (("bronze" ++ "." ++ "company_info_raw",
      (⟨db_table_exists all_ok_verify_env ("company_info_raw") ("bronze"),
        if db_table_exists all_ok_verify_env ("company_info_raw") ("bronze")
        then db_get_row_count all_ok_verify_env ("company_info_raw") ("bronze") else 0⟩
          : TableCheck)) ∈ (verify_deployment all_ok_verify_env ⟨[], []⟩).1.tables) :=
  ⟨(verify_deployment_readonly_idempotent all_ok_verify_env ⟨[], []⟩).2.1,
    (verify_deployment_readonly_idempotent all_ok_verify_env ⟨[], []⟩).2.2.2.1
      ("bronze", "company_info_raw") (by decide)⟩

/-- C7: `deploy_database` is the single error boundary: it never
propagates an error (it is a total function into a report), the final
report status is success or failed, the status is failed exactly when an
error message is stamped into the report, an error raised before any stage
(missing configuration) and a stage failure (SQL deployment, data
pipeline) each yield a failed report carrying the message of that error, and
the connection pool is closed on every exit path on which it was
created. -/
theorem deploy_database_error_boundary (env : OrchEnv) (f r l p v : Bool) :
    ((deploy_database env f r l p v).pool_closed =
      (deploy_database env f r l p v).pool_created) ∧
    ((deploy_database env f r l p v).report.status = .success ∨
      (deploy_database env f r l p v).report.status = .failed) ∧
    ((deploy_database env f r l p v).report.status = .failed ↔
      (deploy_database env f r l p v).report.error.isSome = true) ∧
    (env.config_ok = false →
      (deploy_database env f r l p v).report.status = .failed ∧
      (deploy_database env f r l p v).report.error =
        some ("Missing required environment variables")) ∧
    (env.config_ok = true → env.pool_create_ok = true → env.conn_test_ok = true →
      env.sql_path_exists = true → env.csv_path_exists = true →
      (deploy_all env.sql f r ⟨[], []⟩).1.status ≠ .success →
      (deploy_database env f r l p v).report.status = .failed ∧
      (deploy_database env f r l p v).report.error = some ("SQL deployment failed") ∧
      (deploy_database env f r l p v).report.sql_deployment =
        some (deploy_all env.sql f r ⟨[], []⟩).1) ∧
    (env.config_ok = true → env.pool_create_ok = true → env.conn_test_ok = true →
      env.sql_path_exists = true → env.csv_path_exists = true →
      (deploy_all env.sql f r ⟨[], []⟩).1.status = .success →
      l = true → p = true →
      (run_data_pipeline env.pipe ⟨[], []⟩).1.status ≠ .success →
      (deploy_database env f r l p v).report.status = .failed ∧
      (deploy_database env f r l p v).report.error = some ("Data pipeline failed")) := by
  refine ⟨rfl, ?_⟩
  by_cases h1 : env.config_ok = true
  case neg =>
    have hEq : deploy_database env f r l p v =
        ⟨⟨.failed, some ("Missing required environment variables"), none, none, none, none⟩,
          ⟨[], []⟩, ⟨[], []⟩, false, false⟩ := by
      unfold deploy_database deploy_database_body
      simp only [if_neg h1]
    rw [hEq]
    exact ⟨Or.inr rfl, by simp, fun _ => ⟨rfl, rfl⟩,
      fun hc => absurd hc h1, fun hc => absurd hc h1⟩
  case pos =>
    have hcfg : ∀ {C : Prop}, env.config_ok = false → C := fun hc => by
      rw [hc] at h1
      cases h1
    by_cases h2 : env.pool_create_ok = true
    case neg =>
      have hEq : deploy_database env f r l p v =
          ⟨⟨.failed, some ("Failed to create connection pool"), none, none, none, none⟩,
            ⟨[], []⟩, ⟨[], []⟩, false, false⟩ := by
        unfold deploy_database deploy_database_body
        simp only [if_pos h1, if_neg h2]
      rw [hEq]
      exact ⟨Or.inr rfl, by simp, fun hc => hcfg hc,
        fun _ hp => absurd hp h2, fun _ hp => absurd hp h2⟩
    case pos =>
      by_cases h3 : env.conn_test_ok = true
      case neg =>
        have hEq : deploy_database env f r l p v =
            ⟨⟨.failed, some ("Database connection test failed"), none, none, none, none⟩,
              ⟨[], []⟩, ⟨[], []⟩, true, true⟩ := by
          unfold deploy_database deploy_database_body
          simp only [if_pos h1, if_pos h2, if_neg h3]
        rw [hEq]
        exact ⟨Or.inr rfl, by simp, fun hc => hcfg hc,
          fun _ _ hc => absurd hc h3, fun _ _ hc => absurd hc h3⟩
      case pos =>
        by_cases h4 : env.sql_path_exists = true
        case neg =>
          have hEq : deploy_database env f r l p v =
              ⟨⟨.failed, some ("SQL base path not found"), none, none, none, none⟩,
                ⟨[], []⟩, ⟨[], []⟩, true, true⟩ := by
            unfold deploy_database deploy_database_body
            simp only [if_pos h1, if_pos h2, if_pos h3, if_neg h4]
          rw [hEq]
          exact ⟨Or.inr rfl, by simp, fun hc => hcfg hc,
            fun _ _ _ hc => absurd hc h4, fun _ _ _ hc => absurd hc h4⟩
        case pos =>
          by_cases h5 : env.csv_path_exists = true
          case neg =>
            have hEq : deploy_database env f r l p v =
                ⟨⟨.failed, some ("CSV base path not found"), none, none, none, none⟩,
                  ⟨[], []⟩, ⟨[], []⟩, true, true⟩ := by
              unfold deploy_database deploy_database_body
              simp only [if_pos h1, if_pos h2, if_pos h3, if_pos h4, if_neg h5]
            rw [hEq]
            exact ⟨Or.inr rfl, by simp, fun hc => hcfg hc,
              fun _ _ _ _ hc => absurd hc h5, fun _ _ _ _ hc => absurd hc h5⟩
          case pos =>
            by_cases hq : (deploy_all env.sql f r ⟨[], []⟩).1.status = .success
            case neg =>
              have hEq : deploy_database env f r l p v =
                  ⟨⟨.failed, some ("SQL deployment failed"),
                    some (deploy_all env.sql f r ⟨[], []⟩).1, none, none, none⟩,
                    (deploy_all env.sql f r ⟨[], []⟩).2, ⟨[], []⟩, true, true⟩ := by
                unfold deploy_database deploy_database_body
                simp only [if_pos h1, if_pos h2, if_pos h3, if_pos h4, if_pos h5, if_neg hq]
              rw [hEq]
              exact ⟨Or.inr rfl, by simp, fun hc => hcfg hc,
                fun _ _ _ _ _ _ => ⟨rfl, rfl, rfl⟩,
                fun _ _ _ _ _ hqs => absurd hqs hq⟩
            case pos =>
              by_cases hl : l = true
              case pos =>
                by_cases hp : p = true
                case pos =>
                  by_cases hpipe : (run_data_pipeline env.pipe ⟨[], []⟩).1.status = .success
                  case neg =>
                    have hEq : deploy_database env f r l p v =
                        ⟨⟨.failed, some ("Data pipeline failed"),
                          some (deploy_all env.sql f r ⟨[], []⟩).1,
                          (if v = true then
                            some (verify_deployment env.ver
                              (deploy_all env.sql f r ⟨[], []⟩).2).1
                          else none),
                          some (run_data_pipeline env.pipe ⟨[], []⟩).1, none⟩,
                          (deploy_all env.sql f r ⟨[], []⟩).2,
                          (run_data_pipeline env.pipe ⟨[], []⟩).2, true, true⟩ := by
                      unfold deploy_database deploy_database_body
                      simp only [if_pos h1, if_pos h2, if_pos h3, if_pos h4, if_pos h5,
                        if_pos hq, if_pos hl, if_pos hp, if_neg hpipe]
                    rw [hEq]
                    exact ⟨Or.inr rfl, by simp, fun hc => hcfg hc,
                      fun _ _ _ _ _ hne => absurd hq hne,
                      fun _ _ _ _ _ _ _ _ _ => ⟨rfl, rfl⟩⟩
                  case pos =>
                    have hEq : deploy_database env f r l p v =
                        ⟨⟨.success, none,
                          some (deploy_all env.sql f r ⟨[], []⟩).1,
                          (if v = true then
                            some (verify_deployment env.ver
                              (deploy_all env.sql f r ⟨[], []⟩).2).1
                          else none),
                          some (run_data_pipeline env.pipe ⟨[], []⟩).1, none⟩,
                          (deploy_all env.sql f r ⟨[], []⟩).2,
                          (run_data_pipeline env.pipe ⟨[], []⟩).2, true, true⟩ := by
                      unfold deploy_database deploy_database_body
                      simp only [if_pos h1, if_pos h2, if_pos h3, if_pos h4, if_pos h5,
                        if_pos hq, if_pos hl, if_pos hp, if_pos hpipe]
                    rw [hEq]
                    exact ⟨Or.inl rfl, by simp, fun hc => hcfg hc,
                      fun _ _ _ _ _ hne => absurd hq hne,
                      fun _ _ _ _ _ _ _ _ hne => absurd hpipe hne⟩
                case neg =>
                  by_cases hload : (load_all_csvs env.pipe.load true ⟨[], []⟩).1.status = .success
                  case neg =>
                    have hEq : deploy_database env f r l p v =
                        ⟨⟨.failed, some ("Data loading failed"),
                          some (deploy_all env.sql f r ⟨[], []⟩).1,
                          (if v = true then
                            some (verify_deployment env.ver
                              (deploy_all env.sql f r ⟨[], []⟩).2).1
                          else none),
                          none, some (load_all_csvs env.pipe.load true ⟨[], []⟩).1⟩,
                          (deploy_all env.sql f r ⟨[], []⟩).2,
                          (load_all_csvs env.pipe.load true ⟨[], []⟩).2, true, true⟩ := by
                      unfold deploy_database deploy_database_body
                      simp only [if_pos h1, if_pos h2, if_pos h3, if_pos h4, if_pos h5,
                        if_pos hq, if_pos hl, if_neg hp, if_neg hload]
                    rw [hEq]
                    exact ⟨Or.inr rfl, by simp, fun hc => hcfg hc,
                      fun _ _ _ _ _ hne => absurd hq hne,
                      fun _ _ _ _ _ _ _ hp' => absurd hp' hp⟩
                  case pos =>
                    have hEq : deploy_database env f r l p v =
                        ⟨⟨.success, none,
                          some (deploy_all env.sql f r ⟨[], []⟩).1,
                          (if v = true then
                            some (verify_deployment env.ver
                              (deploy_all env.sql f r ⟨[], []⟩).2).1
                          else none),
                          none, some (load_all_csvs env.pipe.load true ⟨[], []⟩).1⟩,
                          (deploy_all env.sql f r ⟨[], []⟩).2,
                          (load_all_csvs env.pipe.load true ⟨[], []⟩).2, true, true⟩ := by
                      unfold deploy_database deploy_database_body
                      simp only [if_pos h1, if_pos h2, if_pos h3, if_pos h4, if_pos h5,
                        if_pos hq, if_pos hl, if_neg hp, if_pos hload]
                    rw [hEq]
                    exact ⟨Or.inl rfl, by simp, fun hc => hcfg hc,
                      fun _ _ _ _ _ hne => absurd hq hne,
                      fun _ _ _ _ _ _ _ hp' => absurd hp' hp⟩
              case neg =>
                have hEq : deploy_database env f r l p v =
                    ⟨⟨.success, none,
                      some (deploy_all env.sql f r ⟨[], []⟩).1,
                      (if v = true then
                        some (verify_deployment env.ver
                          (deploy_all env.sql f r ⟨[], []⟩).2).1
                      else none),
                      none, none⟩,
                      (deploy_all env.sql f r ⟨[], []⟩).2, ⟨[], []⟩, true, true⟩ := by
                  unfold deploy_database deploy_database_body
                  simp only [if_pos h1, if_pos h2, if_pos h3, if_pos h4, if_pos h5,
                    if_pos hq, if_neg hl]
                rw [hEq]
                exact ⟨Or.inl rfl, by simp, fun hc => hcfg hc,
                  fun _ _ _ _ _ hne => absurd hq hne,
                  fun _ _ _ _ _ _ hl' => absurd hl' hl⟩

/-- An orchestrator environment whose mandatory configuration is absent. -/
def no_config_env : OrchEnv :=
  ⟨false, true, true, true, true, all_ok_exec_env, all_ok_verify_env, proc_fail_env⟩

/-- C7 witness: a run with missing configuration returns a failed report
stamped with the message of that error (and, by the first conjunct,
pool teardown mirrors pool creation on this exit path too). -/
theorem deploy_database_error_boundary_witness :
    (deploy_database no_config_env false true true true true).report.status = .failed ∧
    (deploy_database no_config_env false true true true true).report.error =
      some ("Missing required environment variables") :=
  (deploy_database_error_boundary no_config_env false true true true true).2.2.2.1 rfl

/-- C10: `deploy_database` constructs the `DataLoader` before any stage
runs, and its constructor raises when the CSV base directory is missing;
hence for every flag combination — including schema-only runs that request
no CSV loading — a missing CSV base directory makes the whole run finish
failed, with no deployment phase executed and no data operation issued. -/
theorem missing_csv_dir_fails_schema_only_runs (env : OrchEnv) (f r l p v : Bool)
    (h : env.csv_path_exists = false) :
    (deploy_database env f r l p v).report.status = .failed ∧
    (deploy_database env f r l p v).dep.trace = [] ∧
    (deploy_database env f r l p v).data.trace = [] := by
  have h5 : ¬ env.csv_path_exists = true := by simp [h]
  unfold deploy_database deploy_database_body
  by_cases h1 : env.config_ok = true
  · by_cases h2 : env.pool_create_ok = true
    · by_cases h3 : env.conn_test_ok = true
      · by_cases h4 : env.sql_path_exists = true
        · simp only [if_pos h1, if_pos h2, if_pos h3, if_pos h4, if_neg h5]
          simp
        · simp only [if_pos h1, if_pos h2, if_pos h3, if_neg h4]
          simp
      · simp only [if_pos h1, if_pos h2, if_neg h3]
        simp
    · simp only [if_pos h1, if_neg h2]
      simp
  · simp only [if_neg h1]
    simp

/-- An orchestrator environment in which everything is healthy except the
CSV base directory, which does not exist. -/
def missing_csv_dir_env : OrchEnv :=
  ⟨true, true, true, true, false, all_ok_exec_env, all_ok_verify_env, proc_fail_env⟩

/-- C10 witness: a schema-only run (no data loading requested) against the
missing CSV directory still fails, with no stage executed. -/
theorem missing_csv_dir_fails_schema_only_runs_witness :
    (deploy_database missing_csv_dir_env false true false false false).report.status =
      .failed ∧
    (deploy_database missing_csv_dir_env false true false false false).dep.trace = [] ∧
    (deploy_database missing_csv_dir_env false true false false false).data.trace = [] :=
  missing_csv_dir_fails_schema_only_runs missing_csv_dir_env false true false false false rfl
